import Mathlib

/-!
Verification development for the ccdiscord concurrency and messaging core.

The definitions below are a shallow embedding of the TypeScript source:
  * `src/src/adapter/claude-code-adapter.ts` — error classification
    (`analyseClaudeError`, `detectUsageLimitReset`);
  * the worker actor `ClaudeCodeActor` (mailbox drain loop, `!retry`
    fast-path, last-request cache, cooldown scheduling);
  * `src/src/adapter/discord-adapter.ts` — the streaming session
    coordinator (`scheduleFlush`, `flushNow`, `onStreamPartial`,
    `onStreamCompleted`).

JavaScript strings are modelled as Lean `String` viewed as a list of
characters; machine time is a `Nat` count of milliseconds on a uniform
86400000 ms day (mirroring `Date.setHours` rollover); `setTimeout`
handles and `crypto.randomUUID()` identifiers are drawn from counters
threaded through the state.
-/

/-! ## String utilities (JS semantics) -/

/-- ASCII lower-casing of one character, as the classifier's patterns need
(JS `toLowerCase` on the pattern alphabet). -/
def lowerC (c : Char) : Char :=
  if 'A' ≤ c ∧ c ≤ 'Z' then Char.ofNat (c.toNat + 32) else c

/-- JS `\s` (the whitespace class of JavaScript regular expressions). -/
def isJsSpace (c : Char) : Bool :=
  c = ' ' || c = '\t' || c = '\n' || c.toNat = 11 || c.toNat = 12 || c = '\r' ||
  c.toNat = 0xa0 || c.toNat = 0x1680 || (0x2000 ≤ c.toNat && c.toNat ≤ 0x200a) ||
  c.toNat = 0x2028 || c.toNat = 0x2029 || c.toNat = 0x202f || c.toNat = 0x205f ||
  c.toNat = 0x3000 || c.toNat = 0xfeff

/-- JS `String.prototype.trim` on a character list. -/
def jsTrimList (cs : List Char) : List Char :=
  ((cs.dropWhile isJsSpace).reverse.dropWhile isJsSpace).reverse

/-- JS `String.prototype.trim`. -/
def jsTrim (s : String) : String := String.mk (jsTrimList s.data)

/-- JS `String.prototype.toLowerCase` (ASCII fragment). -/
def toLowerStr (s : String) : String := String.mk (s.data.map lowerC)

/-- String length as a character count (JS `.length`). -/
def strLen (s : String) : Nat := s.data.length

/-- JS `String.prototype.slice(0, n)`. -/
def strTake (s : String) (n : Nat) : String := String.mk (s.data.take n)

/-- Match a literal pattern case-insensitively at the head of a character
list, returning the rest on success. -/
def matchLitCI : List Char → List Char → Option (List Char)
  | [], cs => some cs
  | _ :: _, [] => none
  | p :: ps, c :: cs => if lowerC c = lowerC p then matchLitCI ps cs else none

/-- Does `f` hold at some suffix of the list (leftmost scan of a regex
engine)? -/
def scanPred (f : List Char → Bool) : List Char → Bool
  | [] => f []
  | c :: cs => f (c :: cs) || scanPred f cs

/-- Case-insensitive substring test (a fixed-word JS regex with the `i`
flag). -/
def containsCI (s pat : String) : Bool :=
  scanPred (fun cs => (matchLitCI pat.data cs).isSome) s.data

/-! ## Error classifier — `analyseClaudeError` and
`detectUsageLimitReset` from `claude-code-adapter.ts` -/

/-- The regex `/5[-\s]*hour limit reached/i` tested at one position. -/
def matchFiveHourAt : List Char → Bool
  | '5' :: rest =>
      (matchLitCI "hour limit reached".data
        (rest.dropWhile (fun c => c = '-' || isJsSpace c))).isSome
  | _ => false

/-- The regex `/5[-\s]*hour limit reached/i` over the whole string. -/
def fiveHourLimitPattern (s : String) : Bool := scanPred matchFiveHourAt s.data

/-- The regex `/status\s*429/i` tested at one position. -/
def matchStatus429At (cs : List Char) : Bool :=
  match matchLitCI "status".data cs with
  | some rest => (matchLitCI "429".data (rest.dropWhile isJsSpace)).isSome
  | none => false

/-- The regex `/status\s*429/i` over the whole string. -/
def status429Pattern (s : String) : Bool := scanPred matchStatus429At s.data

/-- `/eai_again|econnreset|enotfound|etimedout|network error/i`. -/
def networkPattern (s : String) : Bool :=
  containsCI s "eai_again" || containsCI s "econnreset" ||
  containsCI s "enotfound" || containsCI s "etimedout" ||
  containsCI s "network error"

/-- `/command not found|enoent|spawn/i`. -/
def cliNotFoundPattern (s : String) : Bool :=
  containsCI s "command not found" || containsCI s "enoent" ||
  containsCI s "spawn"

/-- `/image exceeds 5 mb maximum/i`. -/
def imageTooLargePattern (s : String) : Bool :=
  containsCI s "image exceeds 5 mb maximum"

/-- Digit value of an ASCII digit character. -/
def digitVal (c : Char) : Nat := c.toNat - '0'.toNat

/-- After `resets?\s+` has been consumed: parse
`(\d{1,2})(?::(\d{2}))?\s*(am|pm)?` with the greedy semantics of the JS
engine, returning `(hours, minutes, ampm)` where `ampm` is the captured
group lower-cased (`""` when absent). -/
def parseTimeTail (cs : List Char) : Option (Nat × Nat × String) :=
  match cs with
  | [] => none
  | c1 :: rest1 =>
    if c1.isDigit then
      let hr : Nat × List Char :=
        match rest1 with
        | c2 :: rest2 =>
          if c2.isDigit then (digitVal c1 * 10 + digitVal c2, rest2)
          else (digitVal c1, c2 :: rest2)
        | [] => (digitVal c1, [])
      let mr : Nat × List Char :=
        match hr.2 with
        | ':' :: a :: b :: r =>
          if a.isDigit && b.isDigit then (digitVal a * 10 + digitVal b, r)
          else (0, hr.2)
        | _ => (0, hr.2)
      let rest4 := mr.2.dropWhile isJsSpace
      let ampm : String :=
        match matchLitCI "am".data rest4 with
        | some _ => "am"
        | none =>
          match matchLitCI "pm".data rest4 with
          | some _ => "pm"
          | none => ""
      some (hr.1, mr.1, ampm)
    else none

/-- `resets?\s+…` attempted at one start position (greedy `s?`, with the
engine's backtracking to the branch without `s`). -/
def parseResetBody (cs : List Char) : Option (Nat × Nat × String) :=
  match cs with
  | [] => none
  | c :: rest =>
    if isJsSpace c then parseTimeTail (rest.dropWhile isJsSpace) else none

/-- One attempt of `/resets?\s+(\d{1,2})(?::(\d{2}))?\s*(am|pm)?/i` at a
fixed start position. -/
def parseResetAt (cs : List Char) : Option (Nat × Nat × String) :=
  match matchLitCI "reset".data cs with
  | none => none
  | some rest =>
    let withS : Option (Nat × Nat × String) :=
      match rest with
      | c :: rest2 => if lowerC c = 's' then parseResetBody rest2 else none
      | [] => none
    match withS with
    | some r => some r
    | none => parseResetBody rest

/-- Leftmost match of the reset-time regex (`message.match(...)`). -/
def findResetMatch : List Char → Option (Nat × Nat × String)
  | [] => none
  | c :: cs =>
    match parseResetAt (c :: cs) with
    | some r => some r
    | none => findResetMatch cs

/-- One day in milliseconds. -/
def dayMs : Nat := 86400000

/-- Am/pm adjustment of the parsed hour field, as in
`detectUsageLimitReset`. -/
def adjustHours (h : Nat) (ampm : String) : Nat :=
  if ampm = "pm" ∧ h < 12 then h + 12
  else if ampm = "am" ∧ h = 12 then 0
  else h

/-- `detectUsageLimitReset` from `claude-code-adapter.ts`: milliseconds
until the parsed wall-clock time next occurs (one day ahead when the
parsed time is not strictly in the future). `now` is local time in
milliseconds; `Date.setHours(h, m, 0, 0)` is the start of the current day
plus `h` hours and `m` minutes (with JS's rollover for overflowing
fields). -/
def detectUsageLimitReset (now : Nat) (message : String) : Option Nat :=
  match findResetMatch message.data with
  | none => none
  | some (h, m, ampm) =>
    let hours := adjustHours h ampm
    let midnight := now - now % dayMs
    let target0 := midnight + hours * 3600000 + m * 60000
    let target := if target0 ≤ now then target0 + dayMs else target0
    some (max (target - now) 0)

/-- The error taxonomy of the adapter. -/
inductive ClaudeErrorKind
  | USAGE_LIMIT
  | IMAGE_TOO_LARGE
  | NETWORK
  | CLI_NOT_FOUND
  | UNKNOWN
deriving DecidableEq, Repr

/-- Result of `analyseClaudeError`. -/
structure ClaudeAnalysis where
  kind : ClaudeErrorKind
  hint : String
  retryAfterMs : Option Nat
deriving DecidableEq, Repr

/-- `analyseClaudeError` from `claude-code-adapter.ts`. -/
def analyseClaudeError (now : Nat) (message : String) : ClaudeAnalysis :=
  let lower := toLowerStr message
  if fiveHourLimitPattern message || status429Pattern lower then
    { kind := .USAGE_LIMIT
      hint := "Anthropic Claude の利用上限ウィンドウに到達しました。リセットまで待ってから再試行してください。"
      retryAfterMs := detectUsageLimitReset now message }
  else if imageTooLargePattern message then
    { kind := .IMAGE_TOO_LARGE
      hint := "画像が 5MB の上限を超えています。圧縮・縮小してから再実行してください。"
      retryAfterMs := none }
  else if networkPattern lower then
    { kind := .NETWORK
      hint := "ネットワークエラーが発生しました。少し待ってから再試行してください。"
      retryAfterMs := none }
  else if cliNotFoundPattern lower then
    { kind := .CLI_NOT_FOUND
      hint := "Claude CLI が見つかりません。パスやインストール状態を確認してください。"
      retryAfterMs := none }
  else
    { kind := .UNKNOWN
      hint := "Claude Code がエラー終了しました。ログを確認してください。"
      retryAfterMs := none }

/-- The classification precedence as the specification words it: a cascade
over the five pattern groups, first match winning. Stated separately from
`analyseClaudeError` so the precedence claim compares the two. -/
def classifyKindSpec (message : String) : ClaudeErrorKind :=
  if fiveHourLimitPattern message || status429Pattern (toLowerStr message) then
    .USAGE_LIMIT
  else if imageTooLargePattern message then .IMAGE_TOO_LARGE
  else if networkPattern (toLowerStr message) then .NETWORK
  else if cliNotFoundPattern (toLowerStr message) then .CLI_NOT_FOUND
  else .UNKNOWN

/-! ## Worker actor — `ClaudeCodeActor` (mailbox, retry cache, cooldown) -/

/-- Attachment descriptor (`ImportedAttachment` in `types.ts`). -/
structure ImportedAttachment where
  filename : String
  size : Nat
  contentType : Option String
  path : String
  isText : Bool
  contentPreview : Option String
deriving DecidableEq, Repr

/-- The payload fields `ClaudeCodeActor.processMessage` reads from an
incoming message (`unknown` in the source, probed as these fields). -/
structure MsgPayload where
  text : Option String := none
  channelId : Option String := none
  attachments : List ImportedAttachment := []
  originalMessageId : Option Nat := none
deriving DecidableEq, Repr

/-- `ActorMessage`: message identifiers are numbers drawn from a
`crypto.randomUUID()` counter; `sender` and `recipient` render the
source's `from` and `to` fields (Lean keywords). -/
structure ActorMessage where
  id : Nat
  sender : String
  recipient : String
  type : String
  payload : MsgPayload
  timestamp : Nat
deriving DecidableEq, Repr

/-- `StoredRequest`: the per-conversation last-request cache entry. -/
structure StoredRequest where
  request : ActorMessage
  originalMessageId : Nat
deriving DecidableEq, Repr

/-- A scheduled cooldown task (`setTimeout` handle plus its delay). -/
structure CooldownTimer where
  handle : Nat
  delayMs : Nat
  channelId : String
  originalMessageId : Nat
deriving DecidableEq, Repr

/-- Response identifiers: `originalMessageId ? originalMessageId +
"-response" : crypto.randomUUID()`. -/
inductive RespId
  | responseTo (origin : Nat)
  | fresh (n : Nat)
deriving DecidableEq, Repr

/-- The payload shapes the actor sends back over the bus. -/
inductive RespPayload
  | errorText (error : String)
  | errorKind (error : String) (kind : ClaudeErrorKind)
  | claudeResponse (text : String) (sessionId : Option String)
deriving DecidableEq, Repr

/-- A direct reply sent with `bus.send` (`createResponse`). -/
structure ActorResponse where
  id : RespId
  sender : String
  recipient : String
  type : String
  payload : RespPayload
  timestamp : Nat
deriving DecidableEq, Repr

/-- A fire-and-forget event sent with `bus.emit` (the streaming events). -/
structure EmittedEvent where
  eid : Nat
  etype : String
  originalMessageId : Nat
  channelId : String
  message : Option String := none
  fatal : Option Bool := none
  textDelta : Option String := none
  toolChunk : Option String := none
  fullText : Option String := none
  sessionId : Option String := none
deriving DecidableEq, Repr

/-- The structured error the Claude adapter throws (`CLAUDE_ERROR` JSON,
modelled structurally) or a plain error text. -/
inductive AgentError
  | tagged (kind : ClaudeErrorKind) (hint : String) (retryAfterMs : Option Nat)
  | plain (message : String)
deriving DecidableEq, Repr

/-- A text block of an assistant progress message. -/
inductive CBlock
  | textBlock (text : String)
  | otherBlock
deriving DecidableEq, Repr

/-- `message.content` of an assistant progress message. -/
inductive CContent
  | str (s : String)
  | blocks (l : List CBlock)
deriving DecidableEq, Repr

/-- An item of a `user` progress message (tool results). -/
inductive CItem
  | toolResult (content : String)
  | otherItem
deriving DecidableEq, Repr

/-- A typed progress event from the agent SDK. -/
inductive ClaudeMessage
  | assistantMsg (content : CContent)
  | userMsg (content : List CItem)
  | otherMsg
deriving DecidableEq, Repr

/-- Outcome of one `adapter.query` call: the progress events delivered to
`onProgress` and then either the final text or a raised error. -/
inductive AgentOutcome
  | success (progress : List ClaudeMessage) (finalText : String)
  | failure (progress : List ClaudeMessage) (err : AgentError)
deriving DecidableEq, Repr

/-- Association-list lookup (JS `Map.get`). -/
def alookup {α β : Type} [DecidableEq α] : List (α × β) → α → Option β
  | [], _ => none
  | (k, v) :: rest, key => if key = k then some v else alookup rest key

/-- Remove every binding of a key (JS `Map.delete`). -/
def aeraseAll {α β : Type} [DecidableEq α] (l : List (α × β)) (key : α) :
    List (α × β) :=
  l.filter (fun kv => decide (kv.1 ≠ key))

/-- Replace the binding of a key (JS `Map.set`). -/
def aset {α β : Type} [DecidableEq α] (l : List (α × β)) (key : α) (v : β) :
    List (α × β) :=
  (key, v) :: aeraseAll l key

/-- Number of bindings of a key. -/
def countKey {α β : Type} [DecidableEq α] (l : List (α × β)) (key : α) : Nat :=
  (l.filter (fun kv => decide (kv.1 = key))).length

/-- The whole observable state of one `ClaudeCodeActor`: its own fields
(`queue`, `running`, `lastRequestByChannel`, `cooldownTimerByChannel`),
the configuration it reads, and ghost trails of its externally visible
actions (emits, sends, agent calls, processed messages, cancelled
timers). `nextUuid` feeds both `crypto.randomUUID()` and `setTimeout`
handles. -/
structure ActorState where
  queue : List ActorMessage
  running : Bool
  lastRequestByChannel : List (String × StoredRequest)
  cooldownTimerByChannel : List (String × CooldownTimer)
  cancelledCooldowns : List CooldownTimer
  emitted : List EmittedEvent
  responses : List ActorResponse
  agentCalls : List String
  processed : List ActorMessage
  nextUuid : Nat
  now : Nat
  hasBus : Bool
  streamingEnabled : Bool
  sessionId : Option String
  actorName : String
  toolPrefix : String
  maxChunk : Nat
deriving DecidableEq, Repr

/-- `createResponse` of the actor, with the uuid supplied by the caller. -/
def mkResponse (name rcpt rtype : String) (payload : RespPayload)
    (origin : Option Nat) (uid : Nat) (now : Nat) : ActorResponse :=
  { id := match origin with
      | some o => RespId.responseTo o
      | none => RespId.fresh uid
    sender := name, recipient := rcpt, type := rtype, payload := payload,
    timestamp := now }

/-- `bus.send` of a direct reply, recorded in order. -/
def busSend (s : ActorState) (r : ActorResponse) : ActorState :=
  { s with responses := s.responses ++ [r] }

/-- `emitStreamNotice`: emit a `stream-error` event unless the channel is
empty or no bus is wired. -/
def emitStreamNotice (s : ActorState) (channelId : String)
    (originalMessageId : Nat) (message : String) (fatal : Bool) : ActorState :=
  if channelId = "" || !s.hasBus then s
  else
    { s with
      emitted := s.emitted ++
        [{ eid := s.nextUuid, etype := "stream-error",
           originalMessageId := originalMessageId, channelId := channelId,
           message := some message, fatal := some fatal }],
      nextUuid := s.nextUuid + 1 }

/-- The clamp of `scheduleCooldownNotice`:
`Math.min(Math.max(retryAfterMs ?? 30 * 60_000, 60_000), 6 * 60 * 60_000)`. -/
def effectiveCooldownDelay (retryAfterMs : Option Nat) : Nat :=
  min (max (retryAfterMs.getD (30 * 60000)) 60000) (6 * 60 * 60000)

/-- `scheduleCooldownNotice`: clamp the delay, clear any previous timer for
the conversation, record the new one. -/
def scheduleCooldownNotice (s : ActorState) (channelId : String)
    (originalMessageId : Nat) (retryAfterMs : Option Nat) : ActorState :=
  let delay := effectiveCooldownDelay retryAfterMs
  let s1 :=
    match alookup s.cooldownTimerByChannel channelId with
    | some prev =>
      { s with cancelledCooldowns := s.cancelledCooldowns ++ [prev] }
    | none => s
  let timer : CooldownTimer :=
    { handle := s1.nextUuid, delayMs := delay, channelId := channelId,
      originalMessageId := originalMessageId }
  { s1 with
    nextUuid := s1.nextUuid + 1,
    cooldownTimerByChannel := aset s1.cooldownTimerByChannel channelId timer }

/-- `parseClaudeError` of the actor, over the structured error. A plain
(non-`CLAUDE_ERROR`) text yields `none` and the caller falls back to the
raw message. -/
def parseClaudeError : AgentError → Option ClaudeAnalysis
  | .plain _ => none
  | .tagged kind hint retryAfterMs =>
    let friendly :=
      match kind with
      | .USAGE_LIMIT =>
        (match retryAfterMs with
         | some ms =>
           hint ++ "\n推定残り時間: 約" ++
             toString (max 1 ((ms + 59999) / 60000)) ++ "分。"
         | none => hint) ++ "\n制限解除後に「!retry」で再実行できます。"
      | .IMAGE_TOO_LARGE =>
        hint ++ "\n画像を 5MB 未満に抑えるよう圧縮してから再実行してください。"
      | .NETWORK => hint ++ "\n時間を置いて「!retry」で再試行してください。"
      | .CLI_NOT_FOUND =>
        hint ++ "\nCLI のインストールやパス設定を確認したうえで再実行してください。"
      | .UNKNOWN => hint ++ "\n必要に応じて「!retry」で再実行できます。"
    some { kind := kind, hint := friendly, retryAfterMs := retryAfterMs }

/-- The raw `error.message` fallback used when `parseClaudeError` yields
nothing (only reachable for plain errors). -/
def plainMessage : AgentError → String
  | .plain m => m
  | .tagged _ hint _ => hint

/-- `buildMessageContent`: merge attachment descriptors (and bounded text
previews) into the prompt. -/
def buildMessageContent (text : String)
    (attachments : List ImportedAttachment) : String :=
  if attachments.isEmpty then text
  else
    let lines : List String :=
      ["[Attachments imported]"] ++
      attachments.flatMap (fun a =>
        let sizeLabel := toString a.size ++ " bytes"
        let descriptor :=
          match a.contentType with
          | some ct => sizeLabel ++ ", " ++ ct
          | none => sizeLabel
        ["- " ++ a.filename ++ " (" ++ descriptor ++ ") -> " ++ a.path] ++
        (match a.contentPreview with
         | some p =>
           if a.isText && p ≠ "" then
             ["--- preview: " ++ a.filename ++ " ---", strTake p 4000,
              "--- end preview ---"]
           else []
         | none => [])) ++
      ["", "必要なら `Read(<path>)` でファイル全体を参照してください。"]
    let preamble := String.intercalate "\n" lines
    if text ≠ "" then preamble ++ "\n\n" ++ text else preamble

/-- The text deltas of an assistant progress message, concatenated. -/
def assistantDelta : CContent → String
  | .str s => s
  | .blocks l =>
    l.foldl (fun acc b =>
      match b with
      | .textBlock t => acc ++ t
      | .otherBlock => acc) ""

/-- The `truncate` helper of the streaming path. -/
def truncateChunk (s : String) (n : Nat) : String :=
  if strLen s > n then strTake s n ++ "..." else s

/-- Relay one agent progress event as `stream-partial` emissions
(assistant text deltas, then tool-result chunks), as the `onProgress`
callback of the streaming path does. -/
def emitProgressEvent (origId : Nat) (chan : String) (s : ActorState)
    (cm : ClaudeMessage) : ActorState :=
  match cm with
  | .assistantMsg content =>
    let delta := assistantDelta content
    if delta ≠ "" then
      { s with
        emitted := s.emitted ++
          [{ eid := s.nextUuid, etype := "stream-partial",
             originalMessageId := origId, channelId := chan,
             textDelta := some delta }],
        nextUuid := s.nextUuid + 1 }
    else s
  | .userMsg items =>
    items.foldl (fun acc item =>
      match item with
      | .toolResult raw =>
        let chunk := acc.toolPrefix ++ "\n```\n" ++
          truncateChunk raw acc.maxChunk ++ "\n```\n"
        { acc with
          emitted := acc.emitted ++
            [{ eid := acc.nextUuid, etype := "stream-partial",
               originalMessageId := origId, channelId := chan,
               toolChunk := some chunk }],
          nextUuid := acc.nextUuid + 1 }
      | .otherItem => acc) s
  | .otherMsg => s

/-- The four entry points of the actor that call one another:
`processMessage`, `retryLast`, `drainQueue` and the drain loop's body.
They are mutually recursive in the source (a `!retry` unshifts a clone
and calls `drainQueue` again), so the embedding runs them through one
fuel-indexed interpreter `actorGo`. -/
inductive ACall
  | pm (message : ActorMessage)
  | rl (channelId : String) (originalMessageId : Option Nat)
  | dq
  | dl
deriving DecidableEq, Repr

/-- The actor's serialized execution. Each constructor branch is the
direct translation of the corresponding method of `ClaudeCodeActor`:

* `.pm` — `processMessage` (command dispatch; last-request caching; the
  empty-content guard; the non-streaming and streaming agent paths with
  classification, notices and cooldown scheduling);
* `.rl` — `retryLast` (front-of-queue clone insertion, cooldown
  cancellation, retrying notice, drain resumption);
* `.dq` — `drainQueue` (the single-flight `running` guard);
* `.dl` — the `while` loop of `drainQueue`, shifting from the front.

Fuel only bounds the recursion depth; every run in the theorems below is
given enough fuel to finish. -/
def actorGo (agent : String → AgentOutcome) :
    Nat → ActorState → ACall → ActorState
  | 0, s, _ => s
  | fuel + 1, s, ACall.pm message =>
    if message.type = "discord-command" then
      let payload := message.payload
      let isRetryCmd : Bool :=
        match payload.text with
        | some t => decide (toLowerStr (jsTrim t) = "!retry")
        | none => false
      if isRetryCmd then
        actorGo agent fuel s (ACall.rl (payload.channelId.getD "") (some message.id))
      else if payload.channelId.getD "" ≠ "" then
        emitStreamNotice s (payload.channelId.getD "") message.id
          "サポートされていないコマンドです。" false
      else s
    else
      let content := message.payload
      let text := content.text.getD ""
      let attachments := content.attachments
      let originalMessageId := content.originalMessageId.getD message.id
      let channelId := content.channelId
      let s1 :=
        if channelId.getD "" ≠ "" then
          let cached : StoredRequest :=
            { request := { message with payload :=
                { content with originalMessageId := some originalMessageId } },
              originalMessageId := originalMessageId }
          { s with lastRequestByChannel := aset s.lastRequestByChannel (channelId.getD "") cached }
        else s
      if text = "" && attachments.isEmpty then
        if s1.hasBus then
          busSend s1 (mkResponse s1.actorName message.sender "error"
            (RespPayload.errorText "No text provided for Claude")
            (some message.id) s1.nextUuid s1.now)
        else s1
      else
        let mergedText := buildMessageContent text attachments
        let canStream := s1.streamingEnabled && s1.hasBus
        if !canStream then
          let s2 := { s1 with agentCalls := s1.agentCalls ++ [mergedText] }
          match agent mergedText with
          | AgentOutcome.success _ resp =>
            if s2.hasBus then
              busSend s2 (mkResponse s2.actorName message.sender
                "claude-response" (RespPayload.claudeResponse resp s2.sessionId)
                (some message.id) s2.nextUuid s2.now)
            else s2
          | AgentOutcome.failure _ err =>
            match parseClaudeError err with
            | some parsed =>
              if s2.hasBus then
                let s3 := busSend s2 (mkResponse s2.actorName message.sender
                  "error" (RespPayload.errorKind parsed.hint parsed.kind)
                  (some message.id) s2.nextUuid s2.now)
                if channelId.getD "" ≠ "" then
                  let s4 := emitStreamNotice s3 (channelId.getD "")
                    originalMessageId parsed.hint true
                  if parsed.kind = ClaudeErrorKind.USAGE_LIMIT then
                    scheduleCooldownNotice s4 (channelId.getD "")
                      originalMessageId parsed.retryAfterMs
                  else s4
                else s3
              else s2
            | none =>
              if s2.hasBus then
                busSend s2 (mkResponse s2.actorName message.sender "error"
                  (RespPayload.errorText (plainMessage err))
                  (some message.id) s2.nextUuid s2.now)
              else s2
        else
          let chan := channelId.getD ""
          let s2 : ActorState := { s1 with
            emitted := s1.emitted ++
              [{ eid := s1.nextUuid, etype := "stream-started",
                 originalMessageId := originalMessageId, channelId := chan,
                 sessionId := s1.sessionId }],
            nextUuid := s1.nextUuid + 1 }
          let s3 := { s2 with agentCalls := s2.agentCalls ++ [mergedText] }
          match agent mergedText with
          | AgentOutcome.success progress resp =>
            let s4 := progress.foldl (emitProgressEvent originalMessageId chan) s3
            let s5 : ActorState := { s4 with
              emitted := s4.emitted ++
                [{ eid := s4.nextUuid, etype := "stream-completed",
                   originalMessageId := originalMessageId, channelId := chan,
                   fullText := some resp, sessionId := s4.sessionId }],
              nextUuid := s4.nextUuid + 1 }
            if s5.hasBus then
              busSend s5 (mkResponse s5.actorName message.sender
                "claude-response" (RespPayload.claudeResponse resp s5.sessionId)
                (some message.id) s5.nextUuid s5.now)
            else s5
          | AgentOutcome.failure progress err =>
            let s4 := progress.foldl (emitProgressEvent originalMessageId chan) s3
            let parsed := parseClaudeError err
            let friendly :=
              match parsed with
              | some p => p.hint
              | none => plainMessage err
            let s5 :=
              if channelId.getD "" ≠ "" then
                emitStreamNotice s4 (channelId.getD "") originalMessageId friendly true
              else s4
            let s6 :=
              if s5.hasBus then
                busSend s5 (mkResponse s5.actorName message.sender "error"
                  (RespPayload.errorKind friendly
                    (match parsed with
                     | some p => p.kind
                     | none => ClaudeErrorKind.UNKNOWN))
                  (some message.id) s5.nextUuid s5.now)
              else s5
            match parsed with
            | some p =>
              if p.kind = ClaudeErrorKind.USAGE_LIMIT ∧ channelId.getD "" ≠ "" then
                scheduleCooldownNotice s6 (channelId.getD "")
                  originalMessageId p.retryAfterMs
              else s6
            | none => s6
  | fuel + 1, s, ACall.rl channelId originalMessageId =>
    if channelId = "" then s
    else
      match alookup s.lastRequestByChannel channelId with
      | none =>
        match originalMessageId with
        | some oid =>
          emitStreamNotice s channelId oid
            "再実行できる直近のリクエストが見つかりませんでした。" false
        | none =>
          emitStreamNotice { s with nextUuid := s.nextUuid + 1 } channelId
            s.nextUuid "再実行できる直近のリクエストが見つかりませんでした。" false
      | some stored =>
        let clonedPayload := { stored.request.payload with
          channelId := some channelId,
          originalMessageId := some (originalMessageId.getD stored.originalMessageId) }
        let clonedMessage : ActorMessage := { stored.request with
          id := s.nextUuid, payload := clonedPayload, timestamp := s.now }
        let s1 := { s with nextUuid := s.nextUuid + 1,
                           queue := clonedMessage :: s.queue }
        let s2 :=
          match alookup s1.cooldownTimerByChannel channelId with
          | some prev =>
            { s1 with
              cancelledCooldowns := s1.cancelledCooldowns ++ [prev],
              cooldownTimerByChannel :=
                aeraseAll s1.cooldownTimerByChannel channelId }
          | none => s1
        let s3 :=
          match originalMessageId with
          | some oid =>
            emitStreamNotice s2 channelId oid "前回のリクエストを再実行します…" false
          | none => s2
        actorGo agent fuel s3 ACall.dq
  | fuel + 1, s, ACall.dq =>
    if s.running then s
    else
      let s1 := actorGo agent fuel { s with running := true } ACall.dl
      { s1 with running := false }
  | fuel + 1, s, ACall.dl =>
    match s.queue with
    | [] => s
    | m :: rest =>
      actorGo agent fuel
        (actorGo agent fuel
          { s with queue := rest, processed := s.processed ++ [m] }
          (ACall.pm m))
        ACall.dl

/-- `ClaudeCodeActor.processMessage`. -/
def processMessage (agent : String → AgentOutcome) (fuel : Nat)
    (s : ActorState) (m : ActorMessage) : ActorState :=
  actorGo agent (fuel + 1) s (ACall.pm m)

/-- `ClaudeCodeActor.retryLast`. -/
def retryLast (agent : String → AgentOutcome) (fuel : Nat) (s : ActorState)
    (channelId : String) (originalMessageId : Option Nat) : ActorState :=
  actorGo agent (fuel + 1) s (ACall.rl channelId originalMessageId)

/-- `ClaudeCodeActor.drainQueue`. -/
def drainQueue (agent : String → AgentOutcome) (fuel : Nat)
    (s : ActorState) : ActorState :=
  actorGo agent fuel s ACall.dq

/-- `ClaudeCodeActor.handleMessage`: append to the mailbox, then drain. -/
def handleMessage (agent : String → AgentOutcome) (fuel : Nat)
    (s : ActorState) (m : ActorMessage) : ActorState :=
  drainQueue agent fuel { s with queue := s.queue ++ [m] }

/-- Is this message the `!retry` command (`discord-command` whose text
trims and lower-cases to `!retry`)? The same test `processMessage`
performs. -/
def isRetryCommandMsg (m : ActorMessage) : Bool :=
  m.type = "discord-command" &&
    (match m.payload.text with
     | some t => decide (toLowerStr (jsTrim t) = "!retry")
     | none => false)

/-- Scheduler events of the event loop as seen by one actor: a message
delivery (`handleMessage` runs synchronously up to its first await: the
message is appended and a drain is started if none is running), one
iteration of the active drain loop, and the drain loop's exit. -/
inductive MEvent
  | arrive (m : ActorMessage)
  | proc
  | finish
deriving DecidableEq, Repr

/-- One scheduler event applied to the actor state. -/
def stepM (agent : String → AgentOutcome) (fuel : Nat) (s : ActorState) :
    MEvent → ActorState
  | MEvent.arrive m => { s with queue := s.queue ++ [m], running := true }
  | MEvent.proc =>
    if s.running then
      match s.queue with
      | m :: rest =>
        processMessage agent fuel
          { s with queue := rest, processed := s.processed ++ [m] } m
      | [] => s
    else s
  | MEvent.finish =>
    if s.running && s.queue.isEmpty then { s with running := false } else s

/-- Run a sequence of scheduler events. -/
def runM (agent : String → AgentOutcome) (fuel : Nat) (s : ActorState)
    (events : List MEvent) : ActorState :=
  events.foldl (stepM agent fuel) s

/-- The messages delivered by a sequence of scheduler events, in arrival
order. -/
def arrivalsOf : List MEvent → List ActorMessage
  | [] => []
  | MEvent.arrive m :: es => m :: arrivalsOf es
  | MEvent.proc :: es => arrivalsOf es
  | MEvent.finish :: es => arrivalsOf es

/-- A fresh actor (bus wired, streaming on, defaults from the source). -/
def initActorState : ActorState :=
  { queue := [], running := false, lastRequestByChannel := [],
    cooldownTimerByChannel := [], cancelledCooldowns := [], emitted := [],
    responses := [], agentCalls := [], processed := [], nextUuid := 0,
    now := 0, hasBus := true, streamingEnabled := true, sessionId := none,
    actorName := "claude-code", toolPrefix := "📋 ツール実行結果:",
    maxChunk := 1800 }

/-- An agent stub that always succeeds with a fixed reply. -/
def constAgent : String → AgentOutcome :=
  fun _ => AgentOutcome.success [] "ok"

/-- The `!retry` command message for a conversation. -/
def mkRetryMsg (mid : Nat) (sender c : String) (ts : Nat) : ActorMessage :=
  { id := mid, sender := sender, recipient := "claude-code",
    type := "discord-command",
    payload := { text := some "!retry", channelId := some c },
    timestamp := ts }

/-- A plain content message. -/
def mkContentMsg (mid : Nat) (sender : String) (text : Option String)
    (c : Option String) (ts : Nat) : ActorMessage :=
  { id := mid, sender := sender, recipient := "claude-code", type := "user",
    payload := { text := text, channelId := c }, timestamp := ts }

/-- The retrying notice `retryLast` emits (non-fatal `stream-error`). -/
def retryingNoticeEvent (eid mid : Nat) (c : String) : EmittedEvent :=
  { eid := eid, etype := "stream-error", originalMessageId := mid,
    channelId := c, message := some "前回のリクエストを再実行します…",
    fatal := some false }

/-! ## Streaming session coordinator — `DiscordAdapter`
(`discord-adapter.ts`) -/

/-- `streamingUpdateMode`. -/
inductive StreamMode
  | editMode
  | appendMode
deriving DecidableEq, Repr

/-- The streaming configuration (`getStreamingConfig`, defaults applied). -/
structure StreamCfg where
  enabled : Bool := true
  mode : StreamMode := StreamMode.editMode
  intervalMs : Nat := 1000
  showThinking : Bool := true
  showDone : Bool := true
  showAbort : Bool := true
deriving DecidableEq, Repr

/-- One in-flight streaming session's state (the record `onStreamStarted`
creates and stores in `streamStates`). -/
structure StreamState where
  buffer : String
  toolBuffer : String
  timer : Option Nat
  thinkingMessage : Option Nat
  mode : StreamMode
  channelId : Option String
deriving DecidableEq, Repr

/-- What a pending `setTimeout` of the adapter will do when it fires. -/
inductive TimerKind
  | flushTimer (id : String)
  | completedCleanup (id : String)
deriving DecidableEq, Repr

/-- A pending `setTimeout` of the adapter. -/
structure PendingTimer where
  handle : Nat
  delayMs : Nat
  kind : TimerKind
deriving DecidableEq, Repr

/-- The completed-set cleanup timer (60 s grace window). -/
def cleanupTimer (h : Nat) (id : String) : PendingTimer :=
  { handle := h, delayMs := 60000, kind := TimerKind.completedCleanup id }

/-- A chat-surface operation (thread send / message edit / delete). -/
inductive ChatOp
  | sendOp (text : String) (handle : Nat)
  | editOp (handle : Nat) (text : String)
  | deleteOp (handle : Nat)
deriving DecidableEq, Repr

/-- The delivered text of a chat operation. -/
def chatOpText : ChatOp → String
  | ChatOp.sendOp t _ => t
  | ChatOp.editOp _ t => t
  | ChatOp.deleteOp _ => ""

/-- The streaming-relevant state of one `DiscordAdapter`: the session map,
the completed-id set, the runtime's outstanding timers, and ghost trails
of delivered and failed chat operations. `nextHandle` feeds both message
handles and `setTimeout` handles. -/
structure AdapterState where
  streamStates : List (String × StreamState)
  completedStreamIds : List String
  pendingTimers : List PendingTimer
  chatOps : List ChatOp
  failedOps : List ChatOp
  nextHandle : Nat
  currentThread : Option Nat
  cfg : StreamCfg
deriving DecidableEq, Repr

/-- `capContent` (`max` keeps its source default 1900, never overridden). -/
def capContent (s : String) : String :=
  if strLen s > 1900 then strTake s 1897 ++ "..." else s

/-- The text a flush assembles before capping: tool buffer, a separator
when both buffers are non-empty, text buffer, trimmed. -/
def flushText (toolBuffer buffer : String) : String :=
  jsTrim (toolBuffer ++
    (if toolBuffer ≠ "" && buffer ≠ "" then "\n" else "") ++ buffer)

/-- The flush concatenation as the specification words it, with the
separator made explicit so the two readings can be compared. -/
def specFlushText (toolBuffer buffer sep : String) : String :=
  jsTrim (toolBuffer ++ (if toolBuffer ≠ "" && buffer ≠ "" then sep else "")
    ++ buffer)

/-- `scheduleFlush`: arm one flush timer for the session unless one is
already pending (idempotent while pending). -/
def scheduleFlush (a : AdapterState) (id : String) : AdapterState :=
  match alookup a.streamStates id with
  | none => a
  | some st =>
    if st.timer.isSome then a
    else
      let h := a.nextHandle
      { a with
        nextHandle := h + 1,
        pendingTimers := a.pendingTimers ++
          [{ handle := h, delayMs := a.cfg.intervalMs,
             kind := TimerKind.flushTimer id }],
        streamStates := aset a.streamStates id { st with timer := some h } }

/-- `flushNow`: assemble the buffered output and, when non-empty, deliver
it (editing the placeholder when in edit mode with a placeholder,
otherwise sending a new chunk), then clear both buffers whether the
delivery attempt succeeded (`ok = true`) or failed. -/
def flushNow (a : AdapterState) (id : String) (ok : Bool) : AdapterState :=
  match alookup a.streamStates id, a.currentThread with
  | some st, some _ =>
    let out := flushText st.toolBuffer st.buffer
    if out = "" then a
    else
      let isEdit := st.mode = StreamMode.editMode && st.thinkingMessage.isSome
      let op : ChatOp :=
        if isEdit then ChatOp.editOp (st.thinkingMessage.getD 0) (capContent out)
        else ChatOp.sendOp (capContent out) a.nextHandle
      let a1 : AdapterState :=
        if ok then
          { a with chatOps := a.chatOps ++ [op],
                   nextHandle := if isEdit then a.nextHandle else a.nextHandle + 1 }
        else { a with failedOps := a.failedOps ++ [op] }
      let cleared : StreamState := { st with buffer := "", toolBuffer := "" }
      { a1 with streamStates := aset a1.streamStates id cleared }
  | _, _ => a

/-- `onStreamStarted` (modelled synchronously): create the fresh session
state and, when configured and a thread is available, post the thinking
placeholder (`ok` tells whether that send succeeded). -/
def onStreamStarted (a : AdapterState) (id : String)
    (channelId : Option String) (ok : Bool) : AdapterState :=
  let st0 : StreamState :=
    { buffer := "", toolBuffer := "", timer := none, thinkingMessage := none,
      mode := a.cfg.mode, channelId := channelId }
  if a.cfg.showThinking && a.currentThread.isSome then
    if ok then
      let h := a.nextHandle
      { a with
        nextHandle := h + 1,
        chatOps := a.chatOps ++ [ChatOp.sendOp "🤔 考え中..." h],
        streamStates := aset a.streamStates id
          { st0 with thinkingMessage := some h } }
    else
      { a with
        failedOps := a.failedOps ++ [ChatOp.sendOp "🤔 考え中..." a.nextHandle],
        streamStates := aset a.streamStates id st0 }
  else { a with streamStates := aset a.streamStates id st0 }

/-- `onStreamPartial`: implicitly create the session when the partial
arrives first, append the tool chunk and then the text delta to the
session's buffers (JS truthiness: empty deltas are skipped), and schedule
a flush. -/
def onStreamPartial (a0 : AdapterState) (id : String)
    (channelId : Option String) (textDelta toolChunk : Option String)
    (startOk : Bool) : AdapterState :=
  let a :=
    if (alookup a0.streamStates id).isNone then
      onStreamStarted a0 id channelId startOk
    else a0
  match alookup a.streamStates id with
  | none => a
  | some s =>
    let s1 :=
      match toolChunk with
      | some tc =>
        if tc ≠ "" then
          { s with toolBuffer :=
              s.toolBuffer ++ (if s.toolBuffer ≠ "" then "\n" else "") ++ tc }
        else s
      | none => s
    let s2 :=
      match textDelta with
      | some td => if td ≠ "" then { s1 with buffer := s1.buffer ++ td } else s1
      | none => s1
    scheduleFlush { a with streamStates := aset a.streamStates id s2 } id

/-- Split a final text into chat-sized chunks along line boundaries
(`sendLongMessage` / `sendLongToCurrentThread`). -/
def packLinesAux (limit : Nat) : List String → String → List String →
    List String
  | [], current, acc => if current ≠ "" then acc ++ [current] else acc
  | l :: rest, current, acc =>
    if strLen current + strLen l + 1 > limit then
      packLinesAux limit rest l (acc ++ [current])
    else
      packLinesAux limit rest
        (if current = "" then l else current ++ "\n" ++ l) acc

/-- Split a string on newlines (JS `content.split("\n")`). -/
def splitNl (acc : List Char) : List Char → List String
  | [] => [String.mk acc.reverse]
  | '\n' :: rest => String.mk acc.reverse :: splitNl [] rest
  | c :: rest => splitNl (c :: acc) rest

/-- The chunking of the final output. -/
def splitLongMessage (content : String) : List String :=
  packLinesAux 1900 (splitNl [] content.data) "" []

/-- Send a list of chunks in order (each through the retry helper; `ok`
tells whether the sends succeeded). -/
def sendChunks (a : AdapterState) (msgs : List String) (ok : Bool) :
    AdapterState :=
  msgs.foldl (fun acc msg =>
    if ok then
      { acc with chatOps := acc.chatOps ++ [ChatOp.sendOp msg acc.nextHandle],
                 nextHandle := acc.nextHandle + 1 }
    else { acc with failedOps := acc.failedOps ++ [ChatOp.sendOp msg acc.nextHandle] }) a

/-- `onStreamCompleted`, placeholder-deletion step: delete the thinking
message when configured and present. -/
def deleteThinking (a2 : AdapterState) (id : String) : AdapterState :=
  match alookup a2.streamStates id with
  | some st =>
    if a2.cfg.showThinking && st.thinkingMessage.isSome then
      { a2 with chatOps := a2.chatOps ++ [ChatOp.deleteOp (st.thinkingMessage.getD 0)] }
    else a2
  | none => a2

/-- `onStreamCompleted`, final-output step: split the full text along line
boundaries and deliver the chunks (to the placeholder's channel or the
current thread when either is available). -/
def finalDelivery (a3 : AdapterState) (id : String) (fullText : String)
    (ok : Bool) : AdapterState :=
  let hasTarget :=
    (match alookup a3.streamStates id with
     | some st => st.thinkingMessage.isSome
     | none => false) || a3.currentThread.isSome
  if hasTarget then sendChunks a3 (splitLongMessage fullText) ok else a3

/-- `onStreamCompleted`, done-marker step. -/
def doneMarker (a4 : AdapterState) (ok : Bool) : AdapterState :=
  if a4.cfg.showDone && a4.currentThread.isSome && ok then
    { a4 with chatOps := a4.chatOps ++ [ChatOp.sendOp "✅ done" a4.nextHandle],
              nextHandle := a4.nextHandle + 1 }
  else a4

/-- `onStreamCompleted`, `finally` block: destroy the session, record the
identifier in the completed set, and schedule its removal after the 60 s
grace window. -/
def destroyAndSchedule (a5 : AdapterState) (id : String) : AdapterState :=
  let a6 : AdapterState :=
    { a5 with
      streamStates := aeraseAll a5.streamStates id,
      completedStreamIds :=
        if id ∈ a5.completedStreamIds then a5.completedStreamIds
        else a5.completedStreamIds ++ [id] }
  { a6 with
    nextHandle := a6.nextHandle + 1,
    pendingTimers := a6.pendingTimers ++ [cleanupTimer a6.nextHandle id] }

/-- The tail of `onStreamCompleted` after the flush timer has been
cleared: final flush, placeholder deletion, chunked delivery of the full
text plus the done marker, then — in the `finally` — destruction of the
session, insertion into the completed set and the 60 s cleanup timer. -/
def completedFinish (a1 : AdapterState) (id : String) (fullText : String)
    (ok : Bool) : AdapterState :=
  destroyAndSchedule
    (doneMarker (finalDelivery (deleteThinking (flushNow a1 id ok) id) id fullText ok) ok)
    id

/-- `onStreamCompleted`: cancel the pending flush timer, perform a final
flush, delete the placeholder, deliver the full text in chunks plus the
done marker, then destroy the session, record the identifier in the
completed set and schedule its cleanup after the 60 s grace window. -/
def onStreamCompleted (a : AdapterState) (id : String) (fullText : String)
    (ok : Bool) : AdapterState :=
  let a1 : AdapterState :=
    match alookup a.streamStates id with
    | some st =>
      match st.timer with
      | some h =>
        { a with
          pendingTimers := a.pendingTimers.filter (fun t => decide (t.handle ≠ h)),
          streamStates := aset a.streamStates id { st with timer := none } }
      | none => a
    | none => a
  completedFinish a1 id fullText ok

/-- A pending adapter timer fires: a flush timer clears the session's
timer slot and flushes; a completed-set cleanup removes the identifier
from the completed set. -/
def fireTimer (a : AdapterState) (h : Nat) (ok : Bool) : AdapterState :=
  match a.pendingTimers.find? (fun t => decide (t.handle = h)) with
  | none => a
  | some t =>
    let a1 : AdapterState :=
      { a with pendingTimers := a.pendingTimers.filter (fun x => decide (x.handle ≠ h)) }
    match t.kind with
    | TimerKind.flushTimer id =>
      let a2 : AdapterState :=
        match alookup a1.streamStates id with
        | some st => { a1 with streamStates := aset a1.streamStates id { st with timer := none } }
        | none => a1
      flushNow a2 id ok
    | TimerKind.completedCleanup id =>
      { a1 with completedStreamIds :=
          a1.completedStreamIds.filter (fun x => decide (x ≠ id)) }

/-! ## Concrete sample states (used by the witnesses) -/

/-- The cached request of the worked retry example. -/
def sampleStored : StoredRequest :=
  { request := mkContentMsg 7 "user" (some "cached") (some "ch") 0,
    originalMessageId := 7 }

/-- A pending cooldown timer of the worked examples. -/
def sampleCooldown : CooldownTimer :=
  { handle := 5, delayMs := 60000, channelId := "ch", originalMessageId := 7 }

/-- An actor mid-drain with a cached request, a pending cooldown and one
queued message. -/
def sampleRetryState : ActorState :=
  { initActorState with
    running := true,
    lastRequestByChannel := [("ch", sampleStored)],
    cooldownTimerByChannel := [("ch", sampleCooldown)],
    nextUuid := 50,
    queue := [mkContentMsg 9 "user" (some "queued") (some "ch") 0] }

/-- The empty content message of the no-content examples. -/
def sampleEmptyMsg : ActorMessage := mkContentMsg 4 "user" (some "") (some "ch") 0

/-- A scheduler trace delivering two ordinary messages and draining them. -/
def sampleEvents : List MEvent :=
  [MEvent.arrive (mkContentMsg 1 "user" (some "hi") (some "ch") 0),
   MEvent.arrive (mkContentMsg 2 "user" (some "yo") (some "ch") 0),
   MEvent.proc, MEvent.proc, MEvent.finish]

/-- A fresh adapter bound to a thread. -/
def adapterBase : AdapterState :=
  { streamStates := [], completedStreamIds := [], pendingTimers := [],
    chatOps := [], failedOps := [], nextHandle := 0, currentThread := some 99,
    cfg := {} }

/-- An idle streaming session (empty buffers, no pending flush). -/
def sampleIdleSession : StreamState :=
  { buffer := "", toolBuffer := "", timer := none, thinkingMessage := some 0,
    mode := StreamMode.editMode, channelId := some "ch" }

/-- Adapter with one idle session, for the coalescing example. -/
def sampleC3State : AdapterState :=
  { adapterBase with streamStates := [("m1", sampleIdleSession)], nextHandle := 1 }

/-- Adapter with one session whose flush timer is pending, for the
completion example. -/
def sampleC5State : AdapterState :=
  { adapterBase with
    streamStates := [("m1", { sampleIdleSession with buffer := "tail", timer := some 3 })],
    pendingTimers := [{ handle := 3, delayMs := 1000, kind := TimerKind.flushTimer "m1" }],
    nextHandle := 4 }

/-- A session holding both buffers, for the separator counterexample. -/
def sampleC4Session : StreamState :=
  { buffer := "B", toolBuffer := "A", timer := none, thinkingMessage := none,
    mode := StreamMode.appendMode, channelId := some "ch" }

/-- Adapter with one session holding both buffers, for the separator
counterexample. -/
def sampleC4State : AdapterState :=
  { adapterBase with streamStates := [("m2", sampleC4Session)] }

/-- The clone `retryLast` builds from a cached request. -/
def retryClone (stored : StoredRequest) (c : String) (mid uid ts : Nat) :
    ActorMessage :=
  { stored.request with
    id := uid,
    payload := { stored.request.payload with
      channelId := some c, originalMessageId := some mid },
    timestamp := ts }

/-- The single "no content" error reply of the empty-content path. -/
def noContentResponse (s : ActorState) (m : ActorMessage) : ActorResponse :=
  mkResponse s.actorName m.sender "error"
    (RespPayload.errorText "No text provided for Claude")
    (some m.id) s.nextUuid s.now

/-- The cache entry `processMessage` stores for an incoming content
message (payload enriched with the resolved originating identifier). -/
def cachedEntryOf (m : ActorMessage) : StoredRequest :=
  { request := { m with payload :=
      { m.payload with originalMessageId := some (m.payload.originalMessageId.getD m.id) } },
    originalMessageId := m.payload.originalMessageId.getD m.id }


/-! ## Supporting lemmas -/

lemma alookup_aset_self {α β : Type} [DecidableEq α] (l : List (α × β))
    (k : α) (v : β) : alookup (aset l k v) k = some v := by
  simp [aset, alookup]

lemma alookup_aeraseAll_self {α β : Type} [DecidableEq α]
    (l : List (α × β)) (k : α) : alookup (aeraseAll l k) k = none := by
  induction l with
  | nil => rfl
  | cons kv rest ih =>
    obtain ⟨k1, v1⟩ := kv
    by_cases h : k1 = k
    · simpa [aeraseAll, List.filter_cons, h] using ih
    · simpa [aeraseAll, List.filter_cons, h, alookup, Ne.symm h] using ih

lemma countKey_aeraseAll {α β : Type} [DecidableEq α] (l : List (α × β))
    (k : α) : countKey (aeraseAll l k) k = 0 := by
  induction l with
  | nil => rfl
  | cons kv rest ih =>
    obtain ⟨k1, v1⟩ := kv
    by_cases h : k1 = k <;>
      simpa [aeraseAll, countKey, List.filter_cons, h] using ih

lemma countKey_aset {α β : Type} [DecidableEq α] (l : List (α × β))
    (k : α) (v : β) : countKey (aset l k v) k = 1 := by
  have h0 := countKey_aeraseAll l k
  unfold countKey at h0 ⊢
  unfold aset
  rw [List.filter_cons]
  simp [h0]

lemma foldl_proj {σ α β : Type} (g : σ → β) (f : σ → α → σ)
    (hf : ∀ s x, g (f s x) = g s) (l : List α) (s : σ) :
    g (l.foldl f s) = g s := by
  induction l generalizing s with
  | nil => rfl
  | cons x xs ih => simp [List.foldl, hf, ih]

lemma foldl_mono_nat {σ α : Type} (g : σ → Nat) (f : σ → α → σ)
    (hf : ∀ s x, g s ≤ g (f s x)) (l : List α) (s : σ) :
    g s ≤ g (l.foldl f s) := by
  induction l generalizing s with
  | nil => exact Nat.le_refl _
  | cons x xs ih => exact Nat.le_trans (hf s x) (ih (f s x))

/-! ## C6 — cooldown scheduling -/

/-- C6: every cooldown scheduling clamps the delay to the closed interval
[60000 ms, 21600000 ms] (30 min default when the retry-after is absent;
5000 ms clamps up to 60000 ms and 999999999 ms clamps down to
21600000 ms), any previously pending cooldown timer of the conversation
is cancelled before the new one is recorded, and afterwards exactly one
cooldown timer is pending for that conversation. -/
theorem cooldown_delay_clamp (s : ActorState) (c : String) (mid : Nat)
    (r : Option Nat) :
    (∃ timer, alookup (scheduleCooldownNotice s c mid r).cooldownTimerByChannel c
        = some timer ∧ timer.delayMs = effectiveCooldownDelay r)
    ∧ effectiveCooldownDelay r = min (max (r.getD 1800000) 60000) 21600000
    ∧ 60000 ≤ effectiveCooldownDelay r
    ∧ effectiveCooldownDelay r ≤ 21600000
    ∧ effectiveCooldownDelay (some 5000) = 60000
    ∧ effectiveCooldownDelay (some 999999999) = 21600000
    ∧ countKey (scheduleCooldownNotice s c mid r).cooldownTimerByChannel c = 1
    ∧ (∀ prev, alookup s.cooldownTimerByChannel c = some prev →
        prev ∈ (scheduleCooldownNotice s c mid r).cancelledCooldowns) := by
  refine ⟨?_, rfl, ?_, ?_, by decide, by decide, ?_, ?_⟩
  · unfold scheduleCooldownNotice
    cases h : alookup s.cooldownTimerByChannel c <;>
      simp [h, alookup_aset_self]
  · unfold effectiveCooldownDelay
    cases r with
    | none => simp
    | some v => simp only [Option.getD_some]; omega
  · unfold effectiveCooldownDelay
    cases r <;> simp
  · unfold scheduleCooldownNotice
    cases h : alookup s.cooldownTimerByChannel c <;>
      simp [h, countKey_aset]
  · intro prev hprev
    unfold scheduleCooldownNotice
    simp [hprev]

/-- Witness for C6 at a concrete state with a previously pending timer. -/
theorem cooldown_delay_clamp_witness :
    (∃ timer,
        alookup (scheduleCooldownNotice sampleRetryState "ch" 7 (some 5000)).cooldownTimerByChannel "ch"
          = some timer ∧ timer.delayMs = effectiveCooldownDelay (some 5000))
    ∧ effectiveCooldownDelay (some 5000)
        = min (max ((some 5000).getD 1800000) 60000) 21600000
    ∧ 60000 ≤ effectiveCooldownDelay (some 5000)
    ∧ effectiveCooldownDelay (some 5000) ≤ 21600000
    ∧ effectiveCooldownDelay (some 5000) = 60000
    ∧ effectiveCooldownDelay (some 999999999) = 21600000
    ∧ countKey (scheduleCooldownNotice sampleRetryState "ch" 7 (some 5000)).cooldownTimerByChannel "ch" = 1
    ∧ (∀ prev, alookup sampleRetryState.cooldownTimerByChannel "ch" = some prev →
        prev ∈ (scheduleCooldownNotice sampleRetryState "ch" 7 (some 5000)).cancelledCooldowns) :=
  cooldown_delay_clamp sampleRetryState "ch" 7 (some 5000)

/-! ## C7 — classification precedence -/

/-- C7: `analyseClaudeError` evaluates its pattern rules in fixed
precedence order with first match winning — usage-limit phrases or a
429-style status, then oversized-image phrases, then transient network
phrases, then spawn/not-found phrases, then Unknown — and an input
matching both the usage-limit and the network pattern is classified
`USAGE_LIMIT`. -/
theorem classify_precedence :
    (∀ (now : Nat) (message : String),
      (analyseClaudeError now message).kind = classifyKindSpec message)
    ∧ (analyseClaudeError 0 "status 429 econnreset").kind
        = ClaudeErrorKind.USAGE_LIMIT
    ∧ status429Pattern (toLowerStr "status 429 econnreset") = true
    ∧ networkPattern (toLowerStr "status 429 econnreset") = true := by
  refine ⟨?_, by decide, by decide, by decide⟩
  intro now message
  unfold analyseClaudeError classifyKindSpec
  dsimp only
  split_ifs <;> rfl

/-! ## C8 — usage-limit reset parsing -/

/-- C8: when a usage-limit error text carries a parseable
`resets HH[:MM][am|pm]` hint, classification returns `USAGE_LIMIT` with a
positive (hence non-negative) retry-after of at most one day after which
the wall clock reads exactly the parsed time — the next occurrence of
that wall-clock time, one day ahead when the parsed time is not strictly
in the future; when no time can be parsed the retry-after is unset. -/
theorem usage_reset_retry_after (now : Nat) (message : String) :
    (∀ h m ap, findResetMatch message.data = some (h, m, ap) →
      (fiveHourLimitPattern message || status429Pattern (toLowerStr message)) = true →
      adjustHours h ap < 24 → m < 60 →
      ∃ d, (analyseClaudeError now message).kind = ClaudeErrorKind.USAGE_LIMIT
        ∧ (analyseClaudeError now message).retryAfterMs = some d
        ∧ 0 < d ∧ d ≤ dayMs
        ∧ (now + d) % dayMs = adjustHours h ap * 3600000 + m * 60000)
    ∧ (findResetMatch message.data = none →
        (fiveHourLimitPattern message || status429Pattern (toLowerStr message)) = true →
        (analyseClaudeError now message).retryAfterMs = none) := by
  constructor
  · intro h m ap hfind hcond hh hm
    have hA : (analyseClaudeError now message).kind = ClaudeErrorKind.USAGE_LIMIT ∧
        (analyseClaudeError now message).retryAfterMs = detectUsageLimitReset now message := by
      unfold analyseClaudeError
      dsimp only
      rw [hcond]
      simp
    have hmod : now % dayMs < dayMs := Nat.mod_lt _ (by unfold dayMs; omega)
    by_cases hle : now - now % dayMs + adjustHours h ap * 3600000 + m * 60000 ≤ now
    · have hdet : detectUsageLimitReset now message =
          some (now - now % dayMs + adjustHours h ap * 3600000 + m * 60000 + dayMs - now) := by
        unfold detectUsageLimitReset
        rw [hfind]
        dsimp only
        rw [if_pos hle]
        simp
      refine ⟨_, hA.1, by rw [hA.2, hdet], ?_, ?_, ?_⟩
      · unfold dayMs at *; omega
      · unfold dayMs at *; omega
      · unfold dayMs at *; omega
    · have hdet : detectUsageLimitReset now message =
          some (now - now % dayMs + adjustHours h ap * 3600000 + m * 60000 - now) := by
        unfold detectUsageLimitReset
        rw [hfind]
        dsimp only
        rw [if_neg hle]
        simp
      refine ⟨_, hA.1, by rw [hA.2, hdet], ?_, ?_, ?_⟩
      · unfold dayMs at *; omega
      · unfold dayMs at *; omega
      · unfold dayMs at *; omega
  · intro hfind hcond
    unfold analyseClaudeError
    dsimp only
    rw [hcond]
    simp
    unfold detectUsageLimitReset
    rw [hfind]

/-- Witness for C8: `"5-hour limit reached, resets 3am"` at 01:00 local
time. -/
theorem usage_reset_retry_after_witness :
    findResetMatch "5-hour limit reached, resets 3am".data = some (3, 0, "am")
    ∧ ∃ d, (analyseClaudeError 3600000 "5-hour limit reached, resets 3am").kind
          = ClaudeErrorKind.USAGE_LIMIT
        ∧ (analyseClaudeError 3600000 "5-hour limit reached, resets 3am").retryAfterMs
          = some d
        ∧ 0 < d ∧ d ≤ dayMs
        ∧ (3600000 + d) % dayMs = adjustHours 3 "am" * 3600000 + 0 * 60000 :=
  ⟨by decide,
   (usage_reset_retry_after 3600000 "5-hour limit reached, resets 3am").1
     3 0 "am" (by decide) (by decide) (by decide) (by decide)⟩

/-! ## C4 — the flush of a streaming session -/

lemma strLen_append (a b : String) : strLen (a ++ b) = strLen a + strLen b := by
  cases a; cases b; simp [strLen, String.append]

lemma capContent_le (s : String) : strLen (capContent s) ≤ 1900 := by
  unfold capContent
  by_cases hgt : strLen s > 1900
  · rw [if_pos hgt, strLen_append]
    unfold strLen strTake at *
    simp only [List.length_take, List.length_cons, List.length_nil]
    omega
  · rw [if_neg hgt]
    omega

/-- C4 (amended: the separator between the two buffers is a single line
break, not a blank line): every flush concatenates tool buffer and text
buffer with tool output first, separated by one `"\n"` when both are
non-empty, trims the result, delivers it only if non-empty — editing the
placeholder in edit mode when a placeholder exists, otherwise sending a
new chunk — as exactly one chat operation whose text is capped at 1900
characters with a `"..."` marker, and clears both buffers after the
delivery attempt whether it succeeded or failed. -/
theorem flush_assembly (a : AdapterState) (id : String) (st : StreamState)
    (th : Nat) (ok : Bool)
    (hst : alookup a.streamStates id = some st)
    (hth : a.currentThread = some th) :
    flushText st.toolBuffer st.buffer = specFlushText st.toolBuffer st.buffer "\n"
    ∧ strLen (capContent (flushText st.toolBuffer st.buffer)) ≤ 1900
    ∧ (strLen (flushText st.toolBuffer st.buffer) > 1900 →
        capContent (flushText st.toolBuffer st.buffer)
          = strTake (flushText st.toolBuffer st.buffer) 1897 ++ "...")
    ∧ (strLen (flushText st.toolBuffer st.buffer) ≤ 1900 →
        capContent (flushText st.toolBuffer st.buffer)
          = flushText st.toolBuffer st.buffer)
    ∧ (flushText st.toolBuffer st.buffer = "" → flushNow a id ok = a)
    ∧ (flushText st.toolBuffer st.buffer ≠ "" →
        (∃ op,
          ((ok = true → (flushNow a id ok).chatOps = a.chatOps ++ [op]
              ∧ (flushNow a id ok).failedOps = a.failedOps)
           ∧ (ok = false → (flushNow a id ok).failedOps = a.failedOps ++ [op]
              ∧ (flushNow a id ok).chatOps = a.chatOps))
          ∧ chatOpText op = capContent (flushText st.toolBuffer st.buffer)
          ∧ (st.mode = StreamMode.editMode ∧ st.thinkingMessage.isSome = true →
              ∃ hm2, st.thinkingMessage = some hm2
                ∧ op = ChatOp.editOp hm2 (capContent (flushText st.toolBuffer st.buffer)))
          ∧ (¬(st.mode = StreamMode.editMode ∧ st.thinkingMessage.isSome = true) →
              op = ChatOp.sendOp (capContent (flushText st.toolBuffer st.buffer)) a.nextHandle))
        ∧ (∃ st2, alookup (flushNow a id ok).streamStates id = some st2
            ∧ st2.buffer = "" ∧ st2.toolBuffer = "")) := by
  refine ⟨rfl, capContent_le _, ?_, ?_, ?_, ?_⟩
  · intro hgt; unfold capContent; rw [if_pos hgt]
  · intro hle; unfold capContent; rw [if_neg (by omega)]
  · intro hempty
    unfold flushNow
    simp only [hst, hth]
    rw [if_pos hempty]
  · intro hout
    unfold flushNow
    simp only [hst, hth]
    rw [if_neg hout]
    by_cases hed : st.mode = StreamMode.editMode ∧ st.thinkingMessage.isSome = true
    · obtain ⟨hm2, hx⟩ := Option.isSome_iff_exists.mp hed.2
      have hb : (st.mode = StreamMode.editMode && st.thinkingMessage.isSome) = true := by
        simp [hed.1, hed.2]
      simp only [hb]
      refine ⟨⟨ChatOp.editOp hm2 (capContent (flushText st.toolBuffer st.buffer)),
        ⟨?_, ?_⟩, ?_, ?_, ?_⟩, ?_⟩
      · intro hok; subst hok; simp [hx]
      · intro hok; subst hok; simp [hx]
      · simp [chatOpText]
      · intro _; exact ⟨hm2, hx, rfl⟩
      · intro hc; exact absurd hed hc
      · cases ok <;>
          exact ⟨{ st with buffer := "", toolBuffer := "" },
            by simp [hx, alookup_aset_self], rfl, rfl⟩
    · have hb : (st.mode = StreamMode.editMode && st.thinkingMessage.isSome) = false := by
        by_cases h1 : st.mode = StreamMode.editMode
        · have h2 : st.thinkingMessage.isSome = false := by
            cases hh : st.thinkingMessage.isSome
            · rfl
            · exact absurd ⟨h1, hh⟩ hed
          simp [h2]
        · simp [h1]
      simp only [hb]
      refine ⟨⟨ChatOp.sendOp (capContent (flushText st.toolBuffer st.buffer)) a.nextHandle,
        ⟨?_, ?_⟩, ?_, ?_, ?_⟩, ?_⟩
      · intro hok; subst hok; simp
      · intro hok; subst hok; simp
      · simp [chatOpText]
      · intro hc; exact absurd hc hed
      · intro _; rfl
      · cases ok <;>
          exact ⟨{ st with buffer := "", toolBuffer := "" },
            by simp [alookup_aset_self], rfl, rfl⟩

/-- C4 counterexample to the claim as stated: with tool buffer `"A"` and
text buffer `"B"` the flush delivers `"A\nB"` — one line break between
the buffers, not one blank line (`"A\n\nB"`). -/
theorem flush_separator_counterexample :
    (flushNow sampleC4State "m2" true).chatOps = [ChatOp.sendOp "A\nB" 0]
    ∧ flushText "A" "B" = "A\nB"
    ∧ specFlushText "A" "B" "\n\n" = "A\n\nB"
    ∧ "A\nB" ≠ "A\n\nB" := by decide

/-- Witness for C4 on the concrete two-buffer state. -/
theorem flush_assembly_witness :
    alookup sampleC4State.streamStates "m2" = some sampleC4Session
    ∧ sampleC4State.currentThread = some 99
    ∧ (flushText sampleC4Session.toolBuffer sampleC4Session.buffer
        = specFlushText sampleC4Session.toolBuffer sampleC4Session.buffer "\n"
      ∧ strLen (capContent (flushText sampleC4Session.toolBuffer sampleC4Session.buffer)) ≤ 1900
      ∧ (strLen (flushText sampleC4Session.toolBuffer sampleC4Session.buffer) > 1900 →
          capContent (flushText sampleC4Session.toolBuffer sampleC4Session.buffer)
            = strTake (flushText sampleC4Session.toolBuffer sampleC4Session.buffer) 1897 ++ "...")
      ∧ (strLen (flushText sampleC4Session.toolBuffer sampleC4Session.buffer) ≤ 1900 →
          capContent (flushText sampleC4Session.toolBuffer sampleC4Session.buffer)
            = flushText sampleC4Session.toolBuffer sampleC4Session.buffer)
      ∧ (flushText sampleC4Session.toolBuffer sampleC4Session.buffer = "" →
          flushNow sampleC4State "m2" true = sampleC4State)
      ∧ (flushText sampleC4Session.toolBuffer sampleC4Session.buffer ≠ "" →
          (∃ op,
            ((true = true → (flushNow sampleC4State "m2" true).chatOps = sampleC4State.chatOps ++ [op]
                ∧ (flushNow sampleC4State "m2" true).failedOps = sampleC4State.failedOps)
             ∧ (true = false → (flushNow sampleC4State "m2" true).failedOps = sampleC4State.failedOps ++ [op]
                ∧ (flushNow sampleC4State "m2" true).chatOps = sampleC4State.chatOps))
            ∧ chatOpText op = capContent (flushText sampleC4Session.toolBuffer sampleC4Session.buffer)
            ∧ (sampleC4Session.mode = StreamMode.editMode ∧ sampleC4Session.thinkingMessage.isSome = true →
                ∃ hm2, sampleC4Session.thinkingMessage = some hm2
                  ∧ op = ChatOp.editOp hm2 (capContent (flushText sampleC4Session.toolBuffer sampleC4Session.buffer)))
            ∧ (¬(sampleC4Session.mode = StreamMode.editMode ∧ sampleC4Session.thinkingMessage.isSome = true) →
                op = ChatOp.sendOp (capContent (flushText sampleC4Session.toolBuffer sampleC4Session.buffer)) sampleC4State.nextHandle))
          ∧ (∃ st2, alookup (flushNow sampleC4State "m2" true).streamStates "m2" = some st2
              ∧ st2.buffer = "" ∧ st2.toolBuffer = ""))) :=
  ⟨by decide, by decide,
   flush_assembly sampleC4State "m2" sampleC4Session 99 true (by decide) (by decide)⟩

/-! ## C3 — partial coalescing and flush-timer idempotence -/

lemma aeraseAll_cons_self {α β : Type} [DecidableEq α] (l : List (α × β))
    (k : α) (v : β) : aeraseAll ((k, v) :: l) k = aeraseAll l k := by
  simp [aeraseAll, List.filter_cons]

lemma aeraseAll_aeraseAll {α β : Type} [DecidableEq α] (l : List (α × β))
    (k : α) : aeraseAll (aeraseAll l k) k = aeraseAll l k := by
  induction l with
  | nil => rfl
  | cons kv rest ih =>
    obtain ⟨k1, v1⟩ := kv
    by_cases h : k1 = k <;> simp [aeraseAll, List.filter_cons, h] at ih ⊢ <;>
      simpa [aeraseAll, List.filter_cons, h] using ih

lemma aset_aset {α β : Type} [DecidableEq α] (l : List (α × β)) (k : α)
    (x y : β) : aset (aset l k x) k y = aset l k y := by
  unfold aset
  rw [aeraseAll_cons_self, aeraseAll_aeraseAll]

lemma find?_handle_append (l : List PendingTimer) (h : Nat) (t2 : PendingTimer)
    (hall : ∀ t ∈ l, t.handle ≠ h) (ht2 : t2.handle = h) :
    (l ++ [t2]).find? (fun t => decide (t.handle = h)) = some t2 := by
  induction l with
  | nil => simp [List.find?_cons, ht2]
  | cons x xs ih =>
    have hx : x.handle ≠ h := hall x (by simp)
    simp only [List.cons_append, List.find?_cons]
    rw [decide_eq_false hx]
    exact ih (fun t ht => hall t (by simp [ht]))

/-- C3: scheduling a flush while one is pending is a no-op (at most one
flush timer per session), and two text deltas `"Hello"` and `" world"`
arriving within one flush interval are coalesced — the armed timer stays
the one armed by the first delta, exactly one flush timer is outstanding
for the session, and firing it delivers exactly one update whose content
is `"Hello world"`. -/
theorem stream_flush_coalesces (a : AdapterState) (id : String)
    (st : StreamState) (ch : Option String) (ok1 ok2 : Bool)
    (hst : alookup a.streamStates id = some st)
    (hbuf : st.buffer = "") (htool : st.toolBuffer = "")
    (hti : st.timer = none)
    (hth : ∃ th, a.currentThread = some th)
    (hfresh : ∀ t ∈ a.pendingTimers, t.handle < a.nextHandle)
    (hnone : ∀ t ∈ a.pendingTimers, t.kind ≠ TimerKind.flushTimer id) :
    (∀ (b : AdapterState) (id2 : String) (st2 : StreamState),
        alookup b.streamStates id2 = some st2 → st2.timer.isSome = true →
        scheduleFlush b id2 = b)
    ∧ (∃ st2,
        alookup (onStreamPartial (onStreamPartial a id ch (some "Hello") none ok1)
            id ch (some " world") none ok2).streamStates id = some st2
        ∧ st2.timer = some a.nextHandle
        ∧ st2.buffer = "Hello world" ∧ st2.toolBuffer = "")
    ∧ ((onStreamPartial (onStreamPartial a id ch (some "Hello") none ok1)
          id ch (some " world") none ok2).pendingTimers.filter
            (fun t => decide (t.kind = TimerKind.flushTimer id))).length = 1
    ∧ (∃ op,
        (fireTimer (onStreamPartial (onStreamPartial a id ch (some "Hello") none ok1)
            id ch (some " world") none ok2) a.nextHandle true).chatOps
          = a.chatOps ++ [op]
        ∧ chatOpText op = "Hello world") := by
  obtain ⟨th, hthv⟩ := hth
  have ha2 : onStreamPartial (onStreamPartial a id ch (some "Hello") none ok1)
      id ch (some " world") none ok2 =
      { a with
        streamStates := aset a.streamStates id
          { st with buffer := "Hello world", toolBuffer := "",
                    timer := some a.nextHandle },
        pendingTimers := a.pendingTimers ++
          [{ handle := a.nextHandle, delayMs := a.cfg.intervalMs,
             kind := TimerKind.flushTimer id }],
        nextHandle := a.nextHandle + 1 } := by
    have ha1 : onStreamPartial a id ch (some "Hello") none ok1 =
        { a with
          streamStates := aset a.streamStates id
            { st with buffer := "Hello", timer := some a.nextHandle },
          pendingTimers := a.pendingTimers ++
            [{ handle := a.nextHandle, delayMs := a.cfg.intervalMs,
               kind := TimerKind.flushTimer id }],
          nextHandle := a.nextHandle + 1 } := by
      unfold onStreamPartial
      simp only [hst, Option.isNone_some, Bool.false_eq_true, if_false, if_neg]
      unfold scheduleFlush
      simp [alookup_aset_self, hti, aset_aset, hbuf, htool]
    rw [ha1]
    unfold onStreamPartial
    simp only [alookup_aset_self, Option.isNone_some, Bool.false_eq_true, if_false]
    unfold scheduleFlush
    simp [alookup_aset_self, aset_aset, htool]
  refine ⟨?_, ?_, ?_, ?_⟩
  · intro b id2 st2 hlk hsome
    unfold scheduleFlush
    simp only [hlk]
    rw [if_pos hsome]
  · rw [ha2]
    refine ⟨{ st with buffer := "Hello world", toolBuffer := "", timer := some a.nextHandle }, ?_, rfl, rfl, rfl⟩
    simp [alookup_aset_self]
  · rw [ha2]
    have hzero : a.pendingTimers.filter
        (fun t => decide (t.kind = TimerKind.flushTimer id)) = [] := by
      rw [List.filter_eq_nil_iff]
      intro t ht
      simpa using hnone t ht
    simp [List.filter_append, hzero]
  · rw [ha2]
    have hfind := find?_handle_append a.pendingTimers a.nextHandle
      { handle := a.nextHandle, delayMs := a.cfg.intervalMs,
        kind := TimerKind.flushTimer id }
      (fun t ht => Nat.ne_of_lt (hfresh t ht)) rfl
    unfold fireTimer
    simp only [hfind]
    simp only [alookup_aset_self, aset_aset]
    unfold flushNow
    simp only [alookup_aset_self, hthv]
    dsimp only
    have hout : flushText "" "Hello world" = "Hello world" := by decide
    simp only [hout]
    rw [if_neg (by decide : ¬("Hello world" : String) = "")]
    by_cases hed : st.mode = StreamMode.editMode ∧ st.thinkingMessage.isSome = true
    · have hb : (st.mode = StreamMode.editMode && st.thinkingMessage.isSome) = true := by
        simp [hed.1, hed.2]
      simp only [hb]
      refine ⟨ChatOp.editOp (st.thinkingMessage.getD 0) (capContent "Hello world"),
        rfl, ?_⟩
      simp only [chatOpText]
      decide
    · have hb : (st.mode = StreamMode.editMode && st.thinkingMessage.isSome) = false := by
        by_cases h1 : st.mode = StreamMode.editMode
        · have h2 : st.thinkingMessage.isSome = false := by
            cases hh : st.thinkingMessage.isSome
            · rfl
            · exact absurd ⟨h1, hh⟩ hed
          simp [h2]
        · simp [h1]
      simp only [hb]
      refine ⟨ChatOp.sendOp (capContent "Hello world") (a.nextHandle + 1),
        rfl, ?_⟩
      simp only [chatOpText]
      decide

/-- Witness for C3 on the concrete idle-session state. -/
theorem stream_flush_coalesces_witness :
    (∀ (b : AdapterState) (id2 : String) (st2 : StreamState),
        alookup b.streamStates id2 = some st2 → st2.timer.isSome = true →
        scheduleFlush b id2 = b)
    ∧ (∃ st2,
        alookup (onStreamPartial (onStreamPartial sampleC3State "m1" (some "ch") (some "Hello") none true)
            "m1" (some "ch") (some " world") none true).streamStates "m1" = some st2
        ∧ st2.timer = some sampleC3State.nextHandle
        ∧ st2.buffer = "Hello world" ∧ st2.toolBuffer = "")
    ∧ ((onStreamPartial (onStreamPartial sampleC3State "m1" (some "ch") (some "Hello") none true)
          "m1" (some "ch") (some " world") none true).pendingTimers.filter
            (fun t => decide (t.kind = TimerKind.flushTimer "m1"))).length = 1
    ∧ (∃ op,
        (fireTimer (onStreamPartial (onStreamPartial sampleC3State "m1" (some "ch") (some "Hello") none true)
            "m1" (some "ch") (some " world") none true) sampleC3State.nextHandle true).chatOps
          = sampleC3State.chatOps ++ [op]
        ∧ chatOpText op = "Hello world") :=
  stream_flush_coalesces sampleC3State "m1" sampleIdleSession (some "ch")
    true true (by decide) (by decide) (by decide) (by decide)
    ⟨99, by decide⟩ (by decide) (by decide)

/-! ## C5 — completion cleanup -/

lemma flushNow_frame (a : AdapterState) (id : String) (ok : Bool) :
    (flushNow a id ok).pendingTimers = a.pendingTimers
    ∧ (flushNow a id ok).completedStreamIds = a.completedStreamIds
    ∧ a.nextHandle ≤ (flushNow a id ok).nextHandle
    ∧ (flushNow a id ok).currentThread = a.currentThread
    ∧ (flushNow a id ok).cfg = a.cfg := by
  unfold flushNow
  cases hlk : alookup a.streamStates id <;> cases hct : a.currentThread <;>
    simp [hct]
  all_goals split_ifs <;> simp [hct]

lemma sendChunks_frame (a : AdapterState) (msgs : List String) (ok : Bool) :
    (sendChunks a msgs ok).pendingTimers = a.pendingTimers
    ∧ (sendChunks a msgs ok).completedStreamIds = a.completedStreamIds
    ∧ (sendChunks a msgs ok).streamStates = a.streamStates
    ∧ a.nextHandle ≤ (sendChunks a msgs ok).nextHandle := by
  unfold sendChunks
  refine ⟨foldl_proj _ _ ?_ _ _, foldl_proj _ _ ?_ _ _, foldl_proj _ _ ?_ _ _,
    foldl_mono_nat _ _ ?_ _ _⟩ <;> intro s x <;> cases ok <;> simp

lemma deleteThinking_frame (a : AdapterState) (id : String) :
    (deleteThinking a id).pendingTimers = a.pendingTimers
    ∧ (deleteThinking a id).completedStreamIds = a.completedStreamIds
    ∧ (deleteThinking a id).nextHandle = a.nextHandle
    ∧ (deleteThinking a id).streamStates = a.streamStates := by
  unfold deleteThinking
  cases hlk : alookup a.streamStates id <;> simp
  split_ifs <;> simp

lemma finalDelivery_frame (a : AdapterState) (id : String)
    (fullText : String) (ok : Bool) :
    (finalDelivery a id fullText ok).pendingTimers = a.pendingTimers
    ∧ (finalDelivery a id fullText ok).completedStreamIds = a.completedStreamIds
    ∧ a.nextHandle ≤ (finalDelivery a id fullText ok).nextHandle
    ∧ (finalDelivery a id fullText ok).streamStates = a.streamStates := by
  unfold finalDelivery
  dsimp only
  split_ifs
  · exact ⟨(sendChunks_frame _ _ _).1, (sendChunks_frame _ _ _).2.1,
      (sendChunks_frame _ _ _).2.2.2, (sendChunks_frame _ _ _).2.2.1⟩
  · exact ⟨rfl, rfl, Nat.le_refl _, rfl⟩

lemma doneMarker_frame (a : AdapterState) (ok : Bool) :
    (doneMarker a ok).pendingTimers = a.pendingTimers
    ∧ (doneMarker a ok).completedStreamIds = a.completedStreamIds
    ∧ a.nextHandle ≤ (doneMarker a ok).nextHandle
    ∧ (doneMarker a ok).streamStates = a.streamStates := by
  unfold doneMarker
  split_ifs <;> simp

lemma mem_addCompleted (l : List String) (id : String) :
    id ∈ (if id ∈ l then l else l ++ [id]) := by
  split_ifs with h
  · exact h
  · simp

lemma completedFinish_spec (b : AdapterState) (id : String)
    (fullText : String) (ok : Bool)
    (hb1 : ∀ t ∈ b.pendingTimers, t.kind ≠ TimerKind.flushTimer id)
    (hb2 : ∀ t ∈ b.pendingTimers, t.handle < b.nextHandle) :
    (∀ t ∈ (completedFinish b id fullText ok).pendingTimers,
        t.kind ≠ TimerKind.flushTimer id)
    ∧ alookup (completedFinish b id fullText ok).streamStates id = none
    ∧ id ∈ (completedFinish b id fullText ok).completedStreamIds
    ∧ ∃ h, cleanupTimer h id
          ∈ (completedFinish b id fullText ok).pendingTimers
        ∧ id ∉ (fireTimer (completedFinish b id fullText ok) h true).completedStreamIds := by
  have h2 := flushNow_frame b id ok
  have h3 := deleteThinking_frame (flushNow b id ok) id
  have h4 := finalDelivery_frame (deleteThinking (flushNow b id ok) id) id fullText ok
  have h5 := doneMarker_frame (finalDelivery (deleteThinking (flushNow b id ok) id) id fullText ok) ok
  set a5 := doneMarker (finalDelivery (deleteThinking (flushNow b id ok) id) id fullText ok) ok with ha5
  have hpt : a5.pendingTimers = b.pendingTimers := by
    rw [h5.1, h4.1, h3.1, h2.1]
  have hnh : b.nextHandle ≤ a5.nextHandle :=
    Nat.le_trans h2.2.2.1 (Nat.le_trans (Nat.le_of_eq h3.2.2.1.symm)
      (Nat.le_trans h4.2.2.1 h5.2.2.1))
  have hcf : completedFinish b id fullText ok = destroyAndSchedule a5 id := rfl
  rw [hcf]
  unfold destroyAndSchedule
  refine ⟨?_, ?_, ?_, ?_⟩
  · intro t ht
    simp only [List.mem_append, List.mem_singleton] at ht
    rcases ht with ht | ht
    · exact hb1 t (by rw [hpt] at ht; exact ht)
    · subst ht; simp [cleanupTimer]
  · simp [alookup_aeraseAll_self]
  · exact mem_addCompleted _ _
  · refine ⟨a5.nextHandle, by simp, ?_⟩
    have hfind : (a5.pendingTimers ++
        [cleanupTimer a5.nextHandle id]).find?
          (fun t => decide (t.handle = a5.nextHandle))
        = some (cleanupTimer a5.nextHandle id) := by
      refine find?_handle_append _ _ _ ?_ rfl
      intro t ht
      rw [hpt] at ht
      exact Nat.ne_of_lt (Nat.lt_of_lt_of_le (hb2 t ht) hnh)
    unfold fireTimer
    simp only [hfind]
    simp [cleanupTimer, List.mem_filter]

/-- C5: after `onStreamCompleted` returns, no flush timer for the session
is pending, the session has been removed from the active map, its
identifier is in the completed set, and a 60 s cleanup timer is pending
whose firing removes the identifier from the completed set. -/
theorem stream_completed_cleanup (a : AdapterState) (id : String)
    (fullText : String) (ok : Bool)
    (hinv : ∀ t ∈ a.pendingTimers, t.kind = TimerKind.flushTimer id →
        ∃ st, alookup a.streamStates id = some st ∧ st.timer = some t.handle)
    (hfresh : ∀ t ∈ a.pendingTimers, t.handle < a.nextHandle) :
    (∀ t ∈ (onStreamCompleted a id fullText ok).pendingTimers,
        t.kind ≠ TimerKind.flushTimer id)
    ∧ alookup (onStreamCompleted a id fullText ok).streamStates id = none
    ∧ id ∈ (onStreamCompleted a id fullText ok).completedStreamIds
    ∧ ∃ h, cleanupTimer h id ∈ (onStreamCompleted a id fullText ok).pendingTimers
        ∧ id ∉ (fireTimer (onStreamCompleted a id fullText ok) h true).completedStreamIds := by
  unfold onStreamCompleted
  cases hlk : alookup a.streamStates id with
  | none =>
    simp only
    refine completedFinish_spec a id fullText ok ?_ hfresh
    intro t ht hk
    obtain ⟨st, heq, _⟩ := hinv t ht hk
    rw [hlk] at heq
    cases heq
  | some st =>
    cases hti : st.timer with
    | none =>
      simp only [hti]
      refine completedFinish_spec a id fullText ok ?_ hfresh
      intro t ht hk
      obtain ⟨st2, heq, htm⟩ := hinv t ht hk
      rw [hlk] at heq
      cases heq
      rw [hti] at htm
      cases htm
    | some h0 =>
      simp only [hti]
      refine completedFinish_spec _ id fullText ok ?_ ?_
      · intro t ht hk
        simp only [List.mem_filter, decide_eq_true_eq] at ht
        obtain ⟨st2, heq, htm⟩ := hinv t ht.1 hk
        rw [hlk] at heq
        cases heq
        rw [hti] at htm
        cases htm
        exact absurd rfl ht.2
      · intro t ht
        simp only [List.mem_filter] at ht
        exact hfresh t ht.1

/-- Witness for C5 on the concrete pending-flush state. -/
theorem stream_completed_cleanup_witness :
    (∀ t ∈ (onStreamCompleted sampleC5State "m1" "final" true).pendingTimers,
        t.kind ≠ TimerKind.flushTimer "m1")
    ∧ alookup (onStreamCompleted sampleC5State "m1" "final" true).streamStates "m1" = none
    ∧ "m1" ∈ (onStreamCompleted sampleC5State "m1" "final" true).completedStreamIds
    ∧ ∃ h, cleanupTimer h "m1" ∈ (onStreamCompleted sampleC5State "m1" "final" true).pendingTimers
        ∧ "m1" ∉ (fireTimer (onStreamCompleted sampleC5State "m1" "final" true) h true).completedStreamIds := by
  refine stream_completed_cleanup sampleC5State "m1" "final" true ?_ (by decide)
  intro t ht
  have hteq : t = { handle := 3, delayMs := 1000, kind := TimerKind.flushTimer "m1" } := by
    simpa [sampleC5State, adapterBase] using ht
  subst hteq
  intro _
  exact ⟨{ sampleIdleSession with buffer := "tail", timer := some 3 },
    by decide, by decide⟩

/-! ## C9, C2, C10 — worker actor behaviour -/

lemma processMessage_empty (agent : String → AgentOutcome) (fuel : Nat)
    (s : ActorState) (m : ActorMessage)
    (hty : ¬m.type = "discord-command")
    (htext : m.payload.text.getD "" = "")
    (hatt : m.payload.attachments = [])
    (hbus : s.hasBus = true) :
    (processMessage agent fuel s m).agentCalls = s.agentCalls
    ∧ (processMessage agent fuel s m).responses
        = s.responses ++ [noContentResponse s m]
    ∧ (processMessage agent fuel s m).emitted = s.emitted
    ∧ (processMessage agent fuel s m).queue = s.queue
    ∧ (∀ c, m.payload.channelId = some c → ¬c = "" →
        alookup (processMessage agent fuel s m).lastRequestByChannel c
          = some (cachedEntryOf m))
    ∧ (m.payload.channelId = none →
        (processMessage agent fuel s m).lastRequestByChannel
          = s.lastRequestByChannel) := by
  unfold processMessage
  unfold actorGo
  rw [if_neg hty]
  simp only [htext, hatt]
  cases hch : m.payload.channelId with
  | none =>
    simp [hbus, noContentResponse, busSend]
  | some c =>
    by_cases hc : c = ""
    · subst hc
      simp [hch, hbus, noContentResponse, busSend]
    · simp [hch, hc, hbus, noContentResponse, busSend, cachedEntryOf,
        alookup_aset_self, hatt]

lemma drainQueue_running (agent : String → AgentOutcome) (f : Nat)
    (t : ActorState) (ht : t.running = true) : actorGo agent f t ACall.dq = t := by
  cases f
  · rfl
  · unfold actorGo; rw [if_pos ht]

lemma retry_unshifts (agent : String → AgentOutcome) (fuel : Nat)
    (s : ActorState) (c sd : String) (mid ts : Nat) (stored : StoredRequest)
    (hrun : s.running = true) (hbus : s.hasBus = true) (hc : ¬c = "")
    (hstored : alookup s.lastRequestByChannel c = some stored) :
    (processMessage agent (fuel + 1) s (mkRetryMsg mid sd c ts)).queue
        = retryClone stored c mid s.nextUuid s.now :: s.queue
    ∧ (processMessage agent (fuel + 1) s (mkRetryMsg mid sd c ts)).emitted
        = s.emitted ++ [retryingNoticeEvent (s.nextUuid + 1) mid c]
    ∧ alookup (processMessage agent (fuel + 1) s (mkRetryMsg mid sd c ts)).cooldownTimerByChannel c
        = none
    ∧ (∀ prev, alookup s.cooldownTimerByChannel c = some prev →
        prev ∈ (processMessage agent (fuel + 1) s (mkRetryMsg mid sd c ts)).cancelledCooldowns)
    ∧ (processMessage agent (fuel + 1) s (mkRetryMsg mid sd c ts)).processed = s.processed
    ∧ (processMessage agent (fuel + 1) s (mkRetryMsg mid sd c ts)).running = true
    ∧ (processMessage agent (fuel + 1) s (mkRetryMsg mid sd c ts)).lastRequestByChannel
        = s.lastRequestByChannel
    ∧ (processMessage agent (fuel + 1) s (mkRetryMsg mid sd c ts)).agentCalls = s.agentCalls
    ∧ (processMessage agent (fuel + 1) s (mkRetryMsg mid sd c ts)).responses = s.responses := by
  unfold processMessage
  have hretry : (decide (toLowerStr (jsTrim "!retry") = "!retry")) = true := by decide
  simp only [actorGo, mkRetryMsg, Option.getD_some, hretry, if_true]
  rw [if_neg hc]
  simp only [hstored]
  cases hcd : alookup s.cooldownTimerByChannel c with
  | none =>
    simp only [hcd]
    rw [drainQueue_running agent fuel _ (by simp [emitStreamNotice, hc, hbus, hrun])]
    simp [emitStreamNotice, hc, hbus, retryClone, retryingNoticeEvent, hcd, hrun]
  | some prev =>
    simp only [hcd]
    rw [drainQueue_running agent fuel _ (by simp [emitStreamNotice, hc, hbus, hrun])]
    simp [emitStreamNotice, hc, hbus, retryClone, retryingNoticeEvent,
      alookup_aeraseAll_self, hrun]

/-- C9: a content message with empty text and no attachments never
invokes the agent client and is answered with exactly one non-fatal "no
content" error reply on the bus (and no stream events). -/
theorem empty_content_no_agent (agent : String → AgentOutcome) (fuel : Nat)
    (s : ActorState) (m : ActorMessage)
    (hty : ¬m.type = "discord-command")
    (htext : m.payload.text.getD "" = "")
    (hatt : m.payload.attachments = [])
    (hbus : s.hasBus = true) :
    (processMessage agent fuel s m).agentCalls = s.agentCalls
    ∧ (processMessage agent fuel s m).responses
        = s.responses ++ [noContentResponse s m]
    ∧ noContentResponse s m
        = mkResponse s.actorName m.sender "error"
            (RespPayload.errorText "No text provided for Claude")
            (some m.id) s.nextUuid s.now
    ∧ (processMessage agent fuel s m).emitted = s.emitted := by
  obtain ⟨hag, hresp, hemit, _⟩ := processMessage_empty agent fuel s m hty htext hatt hbus
  exact ⟨hag, hresp, rfl, hemit⟩

/-- Witness for C9 on the concrete empty message. -/
theorem empty_content_no_agent_witness :
    (processMessage constAgent 5 initActorState sampleEmptyMsg).agentCalls
        = initActorState.agentCalls
    ∧ (processMessage constAgent 5 initActorState sampleEmptyMsg).responses
        = initActorState.responses ++ [noContentResponse initActorState sampleEmptyMsg]
    ∧ noContentResponse initActorState sampleEmptyMsg
        = mkResponse initActorState.actorName sampleEmptyMsg.sender "error"
            (RespPayload.errorText "No text provided for Claude")
            (some sampleEmptyMsg.id) initActorState.nextUuid initActorState.now
    ∧ (processMessage constAgent 5 initActorState sampleEmptyMsg).emitted
        = initActorState.emitted :=
  empty_content_no_agent constAgent 5 initActorState sampleEmptyMsg
    (by decide) (by decide) (by decide) (by decide)

/-- C2: a `!retry` for a conversation with a cached request inserts a
clone of the cached request with a fresh identifier at the front of the
mailbox queue (ahead of all previously queued messages, processed next by
the drain loop), cancels the pending cooldown timer of that conversation,
and emits one non-fatal retrying notice, with nothing processed inside
the handler itself. -/
theorem retry_front_insertion (agent : String → AgentOutcome) (fuel : Nat)
    (s : ActorState) (c sd : String) (mid ts : Nat) (stored : StoredRequest)
    (hrun : s.running = true) (hbus : s.hasBus = true) (hc : ¬c = "")
    (hstored : alookup s.lastRequestByChannel c = some stored)
    (hfresh : stored.request.id < s.nextUuid) :
    ∃ clone,
      (processMessage agent (fuel + 1) s (mkRetryMsg mid sd c ts)).queue
          = clone :: s.queue
      ∧ clone.id = s.nextUuid
      ∧ ¬clone.id = stored.request.id
      ∧ clone.type = stored.request.type
      ∧ clone.sender = stored.request.sender
      ∧ clone.payload.text = stored.request.payload.text
      ∧ clone.payload.attachments = stored.request.payload.attachments
      ∧ clone.payload.channelId = some c
      ∧ clone.payload.originalMessageId = some mid
      ∧ alookup (processMessage agent (fuel + 1) s (mkRetryMsg mid sd c ts)).cooldownTimerByChannel c
          = none
      ∧ (∀ prev, alookup s.cooldownTimerByChannel c = some prev →
          prev ∈ (processMessage agent (fuel + 1) s (mkRetryMsg mid sd c ts)).cancelledCooldowns)
      ∧ (processMessage agent (fuel + 1) s (mkRetryMsg mid sd c ts)).emitted
          = s.emitted ++ [retryingNoticeEvent (s.nextUuid + 1) mid c]
      ∧ (retryingNoticeEvent (s.nextUuid + 1) mid c).etype = "stream-error"
      ∧ (retryingNoticeEvent (s.nextUuid + 1) mid c).fatal = some false
      ∧ (processMessage agent (fuel + 1) s (mkRetryMsg mid sd c ts)).processed = s.processed
      ∧ (processMessage agent (fuel + 1) s (mkRetryMsg mid sd c ts)).running = true := by
  obtain ⟨hq, he, hcd, hcanc, hproc, hrn, _, _, _⟩ :=
    retry_unshifts agent fuel s c sd mid ts stored hrun hbus hc hstored
  refine ⟨retryClone stored c mid s.nextUuid s.now, hq, rfl, ?_, rfl, rfl,
    rfl, rfl, rfl, rfl, hcd, hcanc, he, rfl, rfl, hproc, hrn⟩
  simp only [retryClone]
  omega

/-- Witness for C2 on the concrete mid-drain state with a cached request
and a pending cooldown. -/
theorem retry_front_insertion_witness :
    ∃ clone,
      (processMessage constAgent (9 + 1) sampleRetryState (mkRetryMsg 20 "user" "ch" 0)).queue
          = clone :: sampleRetryState.queue
      ∧ clone.id = sampleRetryState.nextUuid
      ∧ ¬clone.id = sampleStored.request.id
      ∧ clone.type = sampleStored.request.type
      ∧ clone.sender = sampleStored.request.sender
      ∧ clone.payload.text = sampleStored.request.payload.text
      ∧ clone.payload.attachments = sampleStored.request.payload.attachments
      ∧ clone.payload.channelId = some "ch"
      ∧ clone.payload.originalMessageId = some 20
      ∧ alookup (processMessage constAgent (9 + 1) sampleRetryState (mkRetryMsg 20 "user" "ch" 0)).cooldownTimerByChannel "ch"
          = none
      ∧ (∀ prev, alookup sampleRetryState.cooldownTimerByChannel "ch" = some prev →
          prev ∈ (processMessage constAgent (9 + 1) sampleRetryState (mkRetryMsg 20 "user" "ch" 0)).cancelledCooldowns)
      ∧ (processMessage constAgent (9 + 1) sampleRetryState (mkRetryMsg 20 "user" "ch" 0)).emitted
          = sampleRetryState.emitted ++ [retryingNoticeEvent (sampleRetryState.nextUuid + 1) 20 "ch"]
      ∧ (retryingNoticeEvent (sampleRetryState.nextUuid + 1) 20 "ch").etype = "stream-error"
      ∧ (retryingNoticeEvent (sampleRetryState.nextUuid + 1) 20 "ch").fatal = some false
      ∧ (processMessage constAgent (9 + 1) sampleRetryState (mkRetryMsg 20 "user" "ch" 0)).processed
          = sampleRetryState.processed
      ∧ (processMessage constAgent (9 + 1) sampleRetryState (mkRetryMsg 20 "user" "ch" 0)).running = true :=
  retry_front_insertion constAgent 9 sampleRetryState "ch" "user" 20 0
    sampleStored (by decide) (by decide) (by decide) (by decide) (by decide)

/-- C10: a content message with a conversation key overwrites the
per-conversation last-request cache before the empty-content check, so an
empty content message — answered only with the "no content" error and
never sent to the agent — still replaces the cached request, and a later
`!retry` for that conversation enqueues a clone of the empty request
(whose processing again calls no agent) rather than the previously cached
one. -/
theorem empty_request_cached_replayed (agent : String → AgentOutcome)
    (fuel : Nat) (s : ActorState) (m : ActorMessage) (c : String)
    (hty : ¬m.type = "discord-command")
    (htext : m.payload.text.getD "" = "")
    (hatt : m.payload.attachments = [])
    (hch : m.payload.channelId = some c) (hc : ¬c = "")
    (hbus : s.hasBus = true) :
    alookup (processMessage agent fuel s m).lastRequestByChannel c
        = some (cachedEntryOf m)
    ∧ (processMessage agent fuel s m).agentCalls = s.agentCalls
    ∧ (processMessage agent fuel s m).responses
        = s.responses ++ [noContentResponse s m]
    ∧ (cachedEntryOf m).request.payload.text = m.payload.text
    ∧ (cachedEntryOf m).request.payload.attachments = []
    ∧ (∀ (t : ActorState) (fuel2 mid ts : Nat) (sd : String),
        t.running = true → t.hasBus = true →
        alookup t.lastRequestByChannel c = some (cachedEntryOf m) →
        ∃ clone,
          (processMessage agent (fuel2 + 1) t (mkRetryMsg mid sd c ts)).queue
              = clone :: t.queue
          ∧ clone.payload.text = m.payload.text
          ∧ clone.payload.attachments = []
          ∧ (∀ (u : ActorState) (fuel3 : Nat), u.hasBus = true →
              (processMessage agent fuel3 u clone).agentCalls = u.agentCalls)) := by
  obtain ⟨hag, hresp, hemit, hq, hcache, _⟩ :=
    processMessage_empty agent fuel s m hty htext hatt hbus
  refine ⟨hcache c hch hc, hag, hresp, rfl, by simp [cachedEntryOf, hatt], ?_⟩
  intro t fuel2 mid ts sd htrun htbus htlk
  obtain ⟨hq2, _, _, _, _, _, _, _, _⟩ :=
    retry_unshifts agent fuel2 t c sd mid ts (cachedEntryOf m) htrun htbus hc htlk
  refine ⟨retryClone (cachedEntryOf m) c mid t.nextUuid t.now, hq2, rfl,
    by simp [retryClone, cachedEntryOf, hatt], ?_⟩
  intro u fuel3 hubus
  exact (processMessage_empty agent fuel3 u _
    (by simpa [retryClone, cachedEntryOf] using hty)
    (by simpa [retryClone, cachedEntryOf] using htext)
    (by simpa [retryClone, cachedEntryOf] using hatt) hubus).1

/-- Witness for C10 on the concrete empty message and fresh actor. -/
theorem empty_request_cached_replayed_witness :
    alookup (processMessage constAgent 5 initActorState sampleEmptyMsg).lastRequestByChannel "ch"
        = some (cachedEntryOf sampleEmptyMsg)
    ∧ (processMessage constAgent 5 initActorState sampleEmptyMsg).agentCalls
        = initActorState.agentCalls
    ∧ (processMessage constAgent 5 initActorState sampleEmptyMsg).responses
        = initActorState.responses ++ [noContentResponse initActorState sampleEmptyMsg]
    ∧ (cachedEntryOf sampleEmptyMsg).request.payload.text = sampleEmptyMsg.payload.text
    ∧ (cachedEntryOf sampleEmptyMsg).request.payload.attachments = []
    ∧ (∀ (t : ActorState) (fuel2 mid ts : Nat) (sd : String),
        t.running = true → t.hasBus = true →
        alookup t.lastRequestByChannel "ch" = some (cachedEntryOf sampleEmptyMsg) →
        ∃ clone,
          (processMessage constAgent (fuel2 + 1) t (mkRetryMsg mid sd "ch" ts)).queue
              = clone :: t.queue
          ∧ clone.payload.text = sampleEmptyMsg.payload.text
          ∧ clone.payload.attachments = []
          ∧ (∀ (u : ActorState) (fuel3 : Nat), u.hasBus = true →
              (processMessage constAgent fuel3 u clone).agentCalls = u.agentCalls)) :=
  empty_request_cached_replayed constAgent 5 initActorState sampleEmptyMsg "ch"
    (by decide) (by decide) (by decide) (by decide) (by decide) (by decide)

/-! ## C1 — FIFO mailbox order -/

@[simp] lemma emitStreamNotice_queue (s : ActorState) (c : String)
    (o : Nat) (msg : String) (f : Bool) :
    (emitStreamNotice s c o msg f).queue = s.queue := by
  unfold emitStreamNotice; split_ifs <;> rfl

@[simp] lemma emitStreamNotice_processed (s : ActorState) (c : String)
    (o : Nat) (msg : String) (f : Bool) :
    (emitStreamNotice s c o msg f).processed = s.processed := by
  unfold emitStreamNotice; split_ifs <;> rfl

@[simp] lemma busSend_queue (s : ActorState) (r : ActorResponse) :
    (busSend s r).queue = s.queue := rfl

@[simp] lemma busSend_processed (s : ActorState) (r : ActorResponse) :
    (busSend s r).processed = s.processed := rfl

@[simp] lemma scheduleCooldownNotice_queue (s : ActorState) (c : String)
    (o : Nat) (r : Option Nat) :
    (scheduleCooldownNotice s c o r).queue = s.queue := by
  unfold scheduleCooldownNotice
  cases alookup s.cooldownTimerByChannel c <;> rfl

@[simp] lemma scheduleCooldownNotice_processed (s : ActorState) (c : String)
    (o : Nat) (r : Option Nat) :
    (scheduleCooldownNotice s c o r).processed = s.processed := by
  unfold scheduleCooldownNotice
  cases alookup s.cooldownTimerByChannel c <;> rfl

@[simp] lemma emitProgressEvent_queue (o : Nat) (ch : String)
    (s : ActorState) (cm : ClaudeMessage) :
    (emitProgressEvent o ch s cm).queue = s.queue := by
  cases cm with
  | assistantMsg content =>
    unfold emitProgressEvent
    dsimp only
    split_ifs <;> rfl
  | userMsg items =>
    unfold emitProgressEvent
    dsimp only
    refine foldl_proj (fun st => st.queue) _ ?_ items s
    intro st it
    cases it <;> rfl
  | otherMsg => rfl

@[simp] lemma emitProgressEvent_processed (o : Nat) (ch : String)
    (s : ActorState) (cm : ClaudeMessage) :
    (emitProgressEvent o ch s cm).processed = s.processed := by
  cases cm with
  | assistantMsg content =>
    unfold emitProgressEvent
    dsimp only
    split_ifs <;> rfl
  | userMsg items =>
    unfold emitProgressEvent
    dsimp only
    refine foldl_proj (fun st => st.processed) _ ?_ items s
    intro st it
    cases it <;> rfl
  | otherMsg => rfl

@[simp] lemma foldl_progress_queue (o : Nat) (ch : String)
    (l : List ClaudeMessage) (s : ActorState) :
    (l.foldl (emitProgressEvent o ch) s).queue = s.queue :=
  foldl_proj (fun st => st.queue) _
    (fun st cm => emitProgressEvent_queue o ch st cm) l s

@[simp] lemma foldl_progress_processed (o : Nat) (ch : String)
    (l : List ClaudeMessage) (s : ActorState) :
    (l.foldl (emitProgressEvent o ch) s).processed = s.processed :=
  foldl_proj (fun st => st.processed) _
    (fun st cm => emitProgressEvent_processed o ch st cm) l s

set_option maxHeartbeats 1600000 in
lemma processMessage_nonretry_frame (agent : String → AgentOutcome)
    (fuel : Nat) (s : ActorState) (m : ActorMessage)
    (h : isRetryCommandMsg m = false) :
    (processMessage agent fuel s m).queue = s.queue
    ∧ (processMessage agent fuel s m).processed = s.processed := by
  unfold processMessage
  unfold actorGo
  by_cases hty : m.type = "discord-command"
  · rw [if_pos hty]
    have hcmd : (match m.payload.text with
        | some t => decide (toLowerStr (jsTrim t) = "!retry")
        | none => false) = false := by
      unfold isRetryCommandMsg at h
      cases htx : m.payload.text with
      | none => rfl
      | some t =>
        rw [htx] at h
        simp [hty] at h
        simp [h]
    simp only [hcmd, Bool.false_eq_true, if_false]
    split_ifs <;> simp
  · rw [if_neg hty]
    refine ⟨?_, ?_⟩ <;>
    · dsimp only
      split_ifs <;> repeat' split
      all_goals simp

lemma runM_fifo (agent : String → AgentOutcome) (fuel : Nat)
    (events : List MEvent) :
    ∀ (s : ActorState),
      (∀ m ∈ s.queue, isRetryCommandMsg m = false) →
      (∀ m ∈ arrivalsOf events, isRetryCommandMsg m = false) →
      (runM agent fuel s events).processed ++ (runM agent fuel s events).queue
          = s.processed ++ s.queue ++ arrivalsOf events
      ∧ (∀ m ∈ (runM agent fuel s events).queue, isRetryCommandMsg m = false) := by
  induction events with
  | nil =>
    intro s hq ha
    refine ⟨by simp [runM, arrivalsOf], ?_⟩
    simpa [runM] using hq
  | cons e es ih =>
    intro s hq ha
    have hrw : runM agent fuel s (e :: es)
        = runM agent fuel (stepM agent fuel s e) es := rfl
    rw [hrw]
    cases e with
    | arrive m =>
      have ham : isRetryCommandMsg m = false := ha m (by simp [arrivalsOf])
      have haes : ∀ m2 ∈ arrivalsOf es, isRetryCommandMsg m2 = false := by
        intro m2 hm2
        exact ha m2 (by simp [arrivalsOf, hm2])
      have hq2 : ∀ m2 ∈ (stepM agent fuel s (MEvent.arrive m)).queue,
          isRetryCommandMsg m2 = false := by
        intro m2 hm2
        simp only [stepM, List.mem_append, List.mem_singleton] at hm2
        rcases hm2 with hm2 | hm2
        · exact hq m2 hm2
        · subst hm2; exact ham
      obtain ⟨heq, hqf⟩ := ih (stepM agent fuel s (MEvent.arrive m)) hq2 haes
      refine ⟨?_, hqf⟩
      rw [heq]
      simp [stepM, arrivalsOf, List.append_assoc]
    | proc =>
      have haes : ∀ m2 ∈ arrivalsOf es, isRetryCommandMsg m2 = false := by
        intro m2 hm2
        exact ha m2 (by simp [arrivalsOf, hm2])
      cases hrun : s.running with
      | false =>
        have hstep : stepM agent fuel s MEvent.proc = s := by
          simp [stepM, hrun]
        rw [hstep]
        obtain ⟨heq, hqf⟩ := ih s hq haes
        refine ⟨?_, hqf⟩
        rw [heq]
        simp only [arrivalsOf]
      | true =>
        cases hqe : s.queue with
        | nil =>
          have hstep : stepM agent fuel s MEvent.proc = s := by
            simp only [stepM, hrun, if_true, hqe]
          rw [hstep]
          obtain ⟨heq, hqf⟩ := ih s hq haes
          refine ⟨?_, hqf⟩
          rw [heq, hqe]
          simp only [arrivalsOf]
        | cons m rest =>
          have hm : isRetryCommandMsg m = false := hq m (by simp [hqe])
          have hstep : stepM agent fuel s MEvent.proc
              = processMessage agent fuel
                  { s with queue := rest, processed := s.processed ++ [m] } m := by
            simp [stepM, hrun, hqe]
          obtain ⟨hfq, hfp⟩ := processMessage_nonretry_frame agent fuel
            { s with queue := rest, processed := s.processed ++ [m] } m hm
          have hq2 : ∀ m2 ∈ (stepM agent fuel s MEvent.proc).queue,
              isRetryCommandMsg m2 = false := by
            intro m2 hm2
            rw [hstep, hfq] at hm2
            exact hq m2 (by simp [hqe, hm2])
          obtain ⟨heq, hqf⟩ := ih (stepM agent fuel s MEvent.proc) hq2 haes
          refine ⟨?_, hqf⟩
          rw [heq, hstep, hfq, hfp]
          simp [hqe, arrivalsOf, List.append_assoc]
    | finish =>
      have haes : ∀ m2 ∈ arrivalsOf es, isRetryCommandMsg m2 = false := by
        intro m2 hm2
        exact ha m2 (by simp [arrivalsOf, hm2])
      have hq2 : ∀ m2 ∈ (stepM agent fuel s MEvent.finish).queue,
          isRetryCommandMsg m2 = false := by
        intro m2 hm2
        simp only [stepM] at hm2
        split at hm2 <;> exact hq m2 hm2
      obtain ⟨heq, hqf⟩ := ih (stepM agent fuel s MEvent.finish) hq2 haes
      refine ⟨?_, hqf⟩
      rw [heq]
      have : (stepM agent fuel s MEvent.finish).processed = s.processed
          ∧ (stepM agent fuel s MEvent.finish).queue = s.queue := by
        simp only [stepM]
        split <;> exact ⟨rfl, rfl⟩
      rw [this.1, this.2]
      simp [arrivalsOf]

/-- C1: messages delivered to the actor without an intervening `!retry`
are processed one at a time in strict arrival (FIFO) order — over any
scheduler trace, the processed prefix followed by the still-queued
messages is exactly the arrival sequence (so message k+1 is only
processed after message k) — and the single-flight `running` flag makes
`drainQueue` a no-op while a drain is already in progress. -/
theorem actor_fifo_without_retry (agent : String → AgentOutcome)
    (fuel : Nat) (events : List MEvent)
    (hnr : ∀ m ∈ arrivalsOf events, isRetryCommandMsg m = false) :
    (runM agent fuel initActorState events).processed
        ++ (runM agent fuel initActorState events).queue = arrivalsOf events
    ∧ (∃ rest, (runM agent fuel initActorState events).processed ++ rest
        = arrivalsOf events)
    ∧ (∀ (t : ActorState), t.running = true → drainQueue agent fuel t = t) := by
  obtain ⟨heq, _⟩ := runM_fifo agent fuel events initActorState
    (by simp [initActorState]) hnr
  have heq2 : (runM agent fuel initActorState events).processed
      ++ (runM agent fuel initActorState events).queue = arrivalsOf events := by
    rw [heq]; simp [initActorState]
  refine ⟨heq2, ⟨(runM agent fuel initActorState events).queue, heq2⟩, ?_⟩
  intro t ht
  unfold drainQueue
  exact drainQueue_running agent fuel t ht

/-- Witness for C1 on a concrete two-message trace. -/
theorem actor_fifo_without_retry_witness :
    (runM constAgent 10 initActorState sampleEvents).processed
        ++ (runM constAgent 10 initActorState sampleEvents).queue
        = arrivalsOf sampleEvents
    ∧ (∃ rest, (runM constAgent 10 initActorState sampleEvents).processed ++ rest
        = arrivalsOf sampleEvents)
    ∧ (∀ (t : ActorState), t.running = true → drainQueue constAgent 10 t = t) :=
  actor_fifo_without_retry constAgent 10 sampleEvents (by decide)
